import Mathlib

/-!
Verification of the mediamtx path core (`pkg/mtx/path.go`, `pkg/mtx/path_manager.go`)

This file gives a shallow embedding of the path actor (`PathHandler`) and the
path registry (`pathManager`) of the repository, and proves properties of the
embedded code.

The actor state machine is embedded as a pure step function
`processMsg : PathState → Msg → PathState × List Output`: each Go channel case
of `PathHandler.runInner` becomes one `Msg` constructor, responses sent on a
request's `Res` channel become `Output.resp` values tagged with the request's
id, and calls into external collaborators (static-source handler start/stop,
on-demand hooks, publisher close) become `Output.ev` events.

The configuration type `conf.Path` lives in the upstream internal package and
is not part of the repository sources; its helper predicates and the
configuration-resolution function are modelled from the spec where noted.
`setReady` is modelled as infallible: its only failure source in Go is
`stream.Initialize`, which belongs to an external package.
-/

namespace MediaMTX

/-- Modelled from the spec: the path configuration value (`conf.Path` of the
upstream internal package, not present under the repository sources). Fields
are the ones the embedded core reads: identity (name / pattern), source kind
and redirect/fallback targets, on-demand options, reader limit, publisher
override, the recording fields and the RPI-camera tuning fields that
`PathConfCanBeUpdated` treats as hot-reloadable. -/
structure ConfPath where
  name : String
  regexp : Option String
  source : String
  sourceOnDemand : Bool
  sourceOnDemandStartTimeout : Nat
  sourceOnDemandCloseAfter : Nat
  sourceRedirect : String
  fallback : String
  maxReaders : Nat
  overridePublisher : Bool
  record : Bool
  recordPath : String
  recordFormat : String
  recordPartDuration : Nat
  recordMaxPartSize : Nat
  recordSegmentDuration : Nat
  recordDeleteAfter : Nat
  runOnDemand : String
  runOnDemandStartTimeout : Nat
  runOnDemandCloseAfter : Nat
  rpiCameraBrightness : Int
  rpiCameraContrast : Int
  rpiCameraSaturation : Int
  rpiCameraSharpness : Int
  rpiCameraExposure : String
  rpiCameraFlickerPeriod : Int
  rpiCameraAWB : String
  rpiCameraAWBGains : List Int
  rpiCameraDenoise : String
  rpiCameraShutter : Int
  rpiCameraMetering : String
  rpiCameraGain : Int
  rpiCameraEV : Int
  rpiCameraFPS : Int
  rpiCameraIDRPeriod : Int
  rpiCameraBitrate : Int
deriving DecidableEq, Repr

/-- Modelled from the spec: `conf.Path.HasStaticSource` (upstream internal
package). A path has a static source when its source is neither a publisher
slot nor a redirect marker (spec: source kind publisher / pull-URL / redirect /
static-device, where pull-URL and static-device are the static sources). -/
def ConfPath.hasStaticSource (c : ConfPath) : Bool :=
  c.source != "publisher" && c.source != "redirect"

/-- Modelled from the spec: `conf.Path.HasOnDemandStaticSource` (upstream
internal package): a static source with on-demand activation enabled. -/
def ConfPath.hasOnDemandStaticSource (c : ConfPath) : Bool :=
  c.hasStaticSource && c.sourceOnDemand

/-- Modelled from the spec: `conf.Path.HasOnDemandPublisher` (upstream internal
package): an on-demand publisher launch command is configured. -/
def ConfPath.hasOnDemandPublisher (c : ConfPath) : Bool :=
  c.runOnDemand != ""

/-- Modelled from the spec: `conf.Path.Clone` (upstream internal package), a
deep copy; on this pure value it is the identity. -/
def ConfPath.clone (c : ConfPath) : ConfPath := c

/-- Embeds `PathConfCanBeUpdated` (`pkg/mtx/path_manager.go`): clone the old
configuration, overwrite the safe-to-change-live fields with the new
configuration's values, and compare the result to the new configuration for
full equality (`conf.Path.Equal` is modelled from the spec as structural
equality). -/
def PathConfCanBeUpdated (oldPathConf newPathConf : ConfPath) : Bool :=
  let clone := oldPathConf.clone
  let clone := { clone with
    name := newPathConf.name
    regexp := newPathConf.regexp
    record := newPathConf.record
    recordPath := newPathConf.recordPath
    recordFormat := newPathConf.recordFormat
    recordPartDuration := newPathConf.recordPartDuration
    recordMaxPartSize := newPathConf.recordMaxPartSize
    recordSegmentDuration := newPathConf.recordSegmentDuration
    recordDeleteAfter := newPathConf.recordDeleteAfter
    rpiCameraBrightness := newPathConf.rpiCameraBrightness
    rpiCameraContrast := newPathConf.rpiCameraContrast
    rpiCameraSaturation := newPathConf.rpiCameraSaturation
    rpiCameraSharpness := newPathConf.rpiCameraSharpness
    rpiCameraExposure := newPathConf.rpiCameraExposure
    rpiCameraFlickerPeriod := newPathConf.rpiCameraFlickerPeriod
    rpiCameraAWB := newPathConf.rpiCameraAWB
    rpiCameraAWBGains := newPathConf.rpiCameraAWBGains
    rpiCameraDenoise := newPathConf.rpiCameraDenoise
    rpiCameraShutter := newPathConf.rpiCameraShutter
    rpiCameraMetering := newPathConf.rpiCameraMetering
    rpiCameraGain := newPathConf.rpiCameraGain
    rpiCameraEV := newPathConf.rpiCameraEV
    rpiCameraFPS := newPathConf.rpiCameraFPS
    rpiCameraIDRPeriod := newPathConf.rpiCameraIDRPeriod
    rpiCameraBitrate := newPathConf.rpiCameraBitrate }
  newPathConf == clone

/-- The on-demand sub-state-machine states (`pathOnDemandState` in
`pkg/mtx/path.go`). -/
inductive OnDemandState where
  | initial
  | waitingReady
  | ready
  | closing
deriving DecidableEq, Repr

/-- The actor's current source (`PathHandler.source`): the redirect marker
(`sourceRedirect`), the static-source handler, or an attached publisher
identified by its author id. -/
inductive Source where
  | redirect
  | staticHandler
  | publisher (author : Nat)
deriving DecidableEq, Repr

/-- Typed failures returned on request response channels. -/
inductive ErrKind where
  | noStream
  | timedOut
  | terminated
  | maxReaders
  | alreadyPublishing
  | sourceNotPublisher
deriving DecidableEq, Repr

/-- Response bodies sent on the `Res` channel of a request. -/
inductive ResBody where
  | describeRedirect (target : String)
  | describeStream (sid : Option Nat)
  | describeErr (e : ErrKind)
  | readerOk (sid : Option Nat)
  | readerErr (e : ErrKind)
  | publisherOk (sid : Option Nat)
  | publisherErr (e : ErrKind)
  | setReadyOk (sid : Option Nat)
  | ack
deriving DecidableEq, Repr

/-- Side effects on external collaborators emitted by the actor. -/
inductive Ev where
  | staticStart (query : String)
  | staticStop (reason : String)
  | demandStart (query : String)
  | demandStop (reason : String)
  | publisherClosed
deriving DecidableEq, Repr

/-- One observable output of a step: a response on a request's reply slot, or
an external side effect. -/
inductive Output where
  | resp (id : Nat) (body : ResBody)
  | ev (e : Ev)
deriving DecidableEq, Repr

/-- The request id a given output resolves, if any. -/
def Output.idOf : Output → Option Nat
  | .resp i _ => some i
  | .ev _ => none

/-- Whether an output is a static-source start command. -/
def Output.isStaticStart : Output → Bool
  | .ev (.staticStart _) => true
  | _ => false

/-- One inbound message of `PathHandler.runInner`'s select loop. Requests carry
the id of their single-use reply slot. -/
inductive Msg where
  | staticReadyFire
  | staticCloseFire
  | pubReadyFire
  | pubCloseFire
  | reloadConf (newConf : ConfPath)
  | staticSetReady (id : Nat)
  | staticSetNotReady (id : Nat)
  | describe (id : Nat) (query : String)
  | addPublisher (id : Nat) (author : Nat)
  | removePublisher (id : Nat) (author : Nat)
  | addReader (id : Nat) (author : Nat)
  | removeReader (id : Nat) (author : Nat)
deriving DecidableEq, Repr

/-- The reply-slot id carried by a message, if it is a request. -/
def Msg.idOf : Msg → Option Nat
  | .staticReadyFire | .staticCloseFire | .pubReadyFire | .pubCloseFire => none
  | .reloadConf _ => none
  | .staticSetReady i | .staticSetNotReady i => some i
  | .describe i _ => some i
  | .addPublisher i _ | .removePublisher i _ => some i
  | .addReader i _ | .removeReader i _ => some i

/-- The mutable state of one path actor (`PathHandler` in `pkg/mtx/path.go`).
Timers are represented by their armed flag; `emptyTimer()` placeholders are
`false`. Streams are identified by a counter so that distinct allocations are
distinguishable. -/
structure PathState where
  conf : ConfPath
  source : Option Source
  stream : Option Nat
  nextStreamId : Nat
  recorder : Bool
  readers : List Nat
  describeRequestsOnHold : List Nat
  readerAddRequestsOnHold : List (Nat × Nat)
  onDemandStaticSourceState : OnDemandState
  staticReadyTimerArmed : Bool
  staticCloseTimerArmed : Bool
  onDemandPublisherState : OnDemandState
  pubReadyTimerArmed : Bool
  pubCloseTimerArmed : Bool
deriving DecidableEq, Repr

/-- The actor state right after `PathHandler.initialize`/`run`'s prologue: the
source field holds the redirect marker when the configured source is
`"redirect"`, the static-source handler when the configuration has a static
source, and nothing otherwise; all timers are unarmed placeholders and all
collections are empty. -/
def initialState (conf : ConfPath) : PathState where
  conf := conf
  source :=
    if conf.source == "redirect" then some .redirect
    else if conf.hasStaticSource then some .staticHandler
    else none
  stream := none
  nextStreamId := 0
  recorder := false
  readers := []
  describeRequestsOnHold := []
  readerAddRequestsOnHold := []
  onDemandStaticSourceState := .initial
  staticReadyTimerArmed := false
  staticCloseTimerArmed := false
  onDemandPublisherState := .initial
  pubReadyTimerArmed := false
  pubCloseTimerArmed := false

/-- `PathHandler.isReady`. -/
def PathState.isReady (s : PathState) : Bool := s.stream.isSome

/-- `PathHandler.shouldClose`: a pattern-created path with no source, no
readers and no pending requests. -/
def shouldClose (s : PathState) : Bool :=
  s.conf.regexp.isSome
    && s.source == none
    && s.readers.isEmpty
    && s.describeRequestsOnHold.isEmpty
    && s.readerAddRequestsOnHold.isEmpty

/-- `PathHandler.setReady` (modelled as infallible, see header): allocates a
fresh stream and starts the recorder when recording is configured. -/
def setReady (s : PathState) : PathState :=
  let sid := s.nextStreamId
  let s := { s with stream := some sid, nextStreamId := sid + 1 }
  if s.conf.record then { s with recorder := true } else s

/-- `PathHandler.setNotReady`: detaches and closes every reader, closes the
recorder and the stream. -/
def setNotReady (s : PathState) : PathState :=
  { s with readers := [], recorder := false, stream := none }

/-- `PathHandler.onDemandStaticSourceStart`: starts the static source, arms the
ready-timeout timer, moves to WaitingReady. -/
def onDemandStaticSourceStart (s : PathState) (query : String) :
    PathState × List Output :=
  ({ s with
      staticReadyTimerArmed := true
      onDemandStaticSourceState := .waitingReady },
    [.ev (.staticStart query)])

/-- `PathHandler.onDemandStaticSourceScheduleClose`: arms the idle-close timer,
moves to Closing. -/
def onDemandStaticSourceScheduleClose (s : PathState) : PathState :=
  { s with staticCloseTimerArmed := true, onDemandStaticSourceState := .closing }

/-- `PathHandler.onDemandStaticSourceStop`: disarms the idle-close timer when
in Closing, returns to Initial, stops the static source. -/
def onDemandStaticSourceStop (s : PathState) (reason : String) :
    PathState × List Output :=
  let s :=
    if s.onDemandStaticSourceState == .closing then
      { s with staticCloseTimerArmed := false }
    else s
  ({ s with onDemandStaticSourceState := .initial }, [.ev (.staticStop reason)])

/-- `PathHandler.onDemandPublisherStart`: installs the on-demand hook, arms the
ready-timeout timer, moves to WaitingReady. -/
def onDemandPublisherStart (s : PathState) (query : String) :
    PathState × List Output :=
  ({ s with
      pubReadyTimerArmed := true
      onDemandPublisherState := .waitingReady },
    [.ev (.demandStart query)])

/-- `PathHandler.onDemandPublisherScheduleClose`. -/
def onDemandPublisherScheduleClose (s : PathState) : PathState :=
  { s with pubCloseTimerArmed := true, onDemandPublisherState := .closing }

/-- `PathHandler.onDemandPublisherStop`. -/
def onDemandPublisherStop (s : PathState) (reason : String) :
    PathState × List Output :=
  let s :=
    if s.onDemandPublisherState == .closing then
      { s with pubCloseTimerArmed := false }
    else s
  ({ s with onDemandPublisherState := .initial }, [.ev (.demandStop reason)])

/-- `PathHandler.addReaderPost`: an already-attached author is answered
immediately; otherwise the reader-limit guard runs, then the author is
attached and a Closing on-demand machine is brought back to Ready with its
idle-close timer disarmed. -/
def addReaderPost (s : PathState) (req : Nat × Nat) : PathState × List Output :=
  if s.readers.contains req.2 then
    (s, [.resp req.1 (.readerOk s.stream)])
  else if s.conf.maxReaders != 0 && s.readers.length ≥ s.conf.maxReaders then
    (s, [.resp req.1 (.readerErr .maxReaders)])
  else
    let s := { s with readers := req.2 :: s.readers }
    let s :=
      if s.conf.hasOnDemandStaticSource then
        if s.onDemandStaticSourceState == .closing then
          { s with
              onDemandStaticSourceState := .ready
              staticCloseTimerArmed := false }
        else s
      else if s.conf.hasOnDemandPublisher then
        if s.onDemandPublisherState == .closing then
          { s with
              onDemandPublisherState := .ready
              pubCloseTimerArmed := false }
        else s
      else s
    (s, [.resp req.1 (.readerOk s.stream)])

/-- Runs `addReaderPost` over a queue of held AddReader requests in order
(the reader loop of `PathHandler.consumeOnHoldRequests`). -/
def flushReaders (s : PathState) : List (Nat × Nat) → PathState × List Output
  | [] => (s, [])
  | r :: rest =>
    ((flushReaders (addReaderPost s r).1 rest).1,
      (addReaderPost s r).2 ++ (flushReaders (addReaderPost s r).1 rest).2)

/-- `PathHandler.consumeOnHoldRequests`: answers every held Describe with the
stream, re-runs every held AddReader through `addReaderPost`, and empties both
queues. -/
def consumeOnHoldRequests (s : PathState) : PathState × List Output :=
  let douts := s.describeRequestsOnHold.map
    (fun id => Output.resp id (.describeStream s.stream))
  let held := s.readerAddRequestsOnHold
  let s := { s with describeRequestsOnHold := [], readerAddRequestsOnHold := [] }
  ((flushReaders s held).1, douts ++ (flushReaders s held).2)

/-- `PathHandler.doOnDemandStaticSourceReadyTimer`: fails every held request
with the source-timed-out error and stops the on-demand static source. -/
def doOnDemandStaticSourceReadyTimer (s : PathState) : PathState × List Output :=
  let douts := s.describeRequestsOnHold.map
    (fun id => Output.resp id (.describeErr .timedOut))
  let routs := s.readerAddRequestsOnHold.map
    (fun r => Output.resp r.1 (.readerErr .timedOut))
  let s := { s with describeRequestsOnHold := [], readerAddRequestsOnHold := [] }
  ((onDemandStaticSourceStop s "timed out").1,
    douts ++ routs ++ (onDemandStaticSourceStop s "timed out").2)

/-- `PathHandler.doOnDemandStaticSourceCloseTimer`. -/
def doOnDemandStaticSourceCloseTimer (s : PathState) : PathState × List Output :=
  let s := setNotReady s
  onDemandStaticSourceStop s "not needed by anyone"

/-- `PathHandler.doOnDemandPublisherReadyTimer`. -/
def doOnDemandPublisherReadyTimer (s : PathState) : PathState × List Output :=
  let douts := s.describeRequestsOnHold.map
    (fun id => Output.resp id (.describeErr .timedOut))
  let routs := s.readerAddRequestsOnHold.map
    (fun r => Output.resp r.1 (.readerErr .timedOut))
  let s := { s with describeRequestsOnHold := [], readerAddRequestsOnHold := [] }
  ((onDemandPublisherStop s "timed out").1,
    douts ++ routs ++ (onDemandPublisherStop s "timed out").2)

/-- `PathHandler.doOnDemandPublisherCloseTimer`. -/
def doOnDemandPublisherCloseTimer (s : PathState) : PathState × List Output :=
  onDemandPublisherStop s "not needed by anyone"

/-- `PathHandler.doReloadConf` (the actor-level hot reload): swap the
configuration, close the recorder when a record-affecting field changed, and
open it when recording is now wanted on a ready stream. -/
def doReloadConfPath (s : PathState) (newConf : ConfPath) : PathState :=
  let oldConf := s.conf
  let s := { s with conf := newConf }
  let s :=
    if s.recorder &&
        (newConf.record != oldConf.record
          || newConf.recordPath != oldConf.recordPath
          || newConf.recordFormat != oldConf.recordFormat
          || newConf.recordPartDuration != oldConf.recordPartDuration
          || newConf.recordMaxPartSize != oldConf.recordMaxPartSize
          || newConf.recordSegmentDuration != oldConf.recordSegmentDuration
          || newConf.recordDeleteAfter != oldConf.recordDeleteAfter) then
      { s with recorder := false }
    else s
  if newConf.record && s.stream.isSome && !s.recorder then
    { s with recorder := true }
  else s

/-- `PathHandler.doSourceStaticSetReady`: mark ready, disarm the ready-timeout
timer and arm the idle-close timer for an on-demand static source, flush the
held requests, and answer the source with the stream. -/
def doSourceStaticSetReady (s : PathState) (id : Nat) : PathState × List Output :=
  let s := setReady s
  let s :=
    if s.conf.hasOnDemandStaticSource then
      onDemandStaticSourceScheduleClose { s with staticReadyTimerArmed := false }
    else s
  ((consumeOnHoldRequests s).1,
    (consumeOnHoldRequests s).2
      ++ [.resp id (.setReadyOk (consumeOnHoldRequests s).1.stream)])

/-- `PathHandler.doSourceStaticSetNotReady`: mark not ready, acknowledge, and
stop a non-idle on-demand static source. -/
def doSourceStaticSetNotReady (s : PathState) (id : Nat) : PathState × List Output :=
  let s := setNotReady s
  if s.conf.hasOnDemandStaticSource
      && s.onDemandStaticSourceState != .initial then
    ((onDemandStaticSourceStop s "an error occurred").1,
      .resp id .ack :: (onDemandStaticSourceStop s "an error occurred").2)
  else
    (s, [.resp id .ack])

/-- `PathHandler.doDescribe`: redirect source, then ready stream, then
on-demand static source, then on-demand publisher, then fallback, then the
no-stream-available error. -/
def doDescribe (s : PathState) (id : Nat) (query : String) :
    PathState × List Output :=
  if s.source == some .redirect then
    (s, [.resp id (.describeRedirect s.conf.sourceRedirect)])
  else if s.stream.isSome then
    (s, [.resp id (.describeStream s.stream)])
  else if s.conf.hasOnDemandStaticSource then
    let (s1, evs) :=
      if s.onDemandStaticSourceState == .initial then
        onDemandStaticSourceStart s query
      else (s, [])
    ({ s1 with describeRequestsOnHold := s1.describeRequestsOnHold ++ [id] }, evs)
  else if s.conf.hasOnDemandPublisher then
    let (s1, evs) :=
      if s.onDemandPublisherState == .initial then
        onDemandPublisherStart s query
      else (s, [])
    ({ s1 with describeRequestsOnHold := s1.describeRequestsOnHold ++ [id] }, evs)
  else if s.conf.fallback != "" then
    (s, [.resp id (.describeRedirect s.conf.fallback)])
  else
    (s, [.resp id (.describeErr .noStream)])

/-- `PathHandler.executeRemovePublisher`. -/
def executeRemovePublisher (s : PathState) : PathState :=
  let s := if s.stream.isSome then setNotReady s else s
  { s with source := none }

/-- `PathHandler.doRemovePublisher`: detach only when the requesting author is
the current source, then acknowledge. -/
def doRemovePublisher (s : PathState) (id author : Nat) : PathState × List Output :=
  let s :=
    if s.source == some (.publisher author) then executeRemovePublisher s
    else s
  (s, [.resp id .ack])

/-- The state mutation of a successful `PathHandler.doAddPublisher`: detach
any existing publisher, attach the author as the source, mark ready
(`setReady`), and when an on-demand publisher launch is underway disarm its
ready-timeout timer and arm its idle-close timer. -/
def attachPublisher (s : PathState) (author : Nat) : PathState :=
  let s := if s.source.isSome then executeRemovePublisher s else s
  let s := { s with source := some (.publisher author) }
  let s := setReady s
  if s.conf.hasOnDemandPublisher
      && s.onDemandPublisherState != .initial then
    onDemandPublisherScheduleClose { s with pubReadyTimerArmed := false }
  else s

/-- `PathHandler.doAddPublisher`: reject when the configured source kind is not
"publisher"; reject when occupied without override; otherwise close and detach
any existing publisher, attach the author, mark ready, manage the
publisher-launch timers, flush held requests, and answer with the stream. -/
def doAddPublisher (s : PathState) (id author : Nat) : PathState × List Output :=
  if s.conf.source != "publisher" then
    (s, [.resp id (.publisherErr .sourceNotPublisher)])
  else
    let closeOuts : List Output :=
      if s.source.isSome then [.ev .publisherClosed] else []
    if s.source.isSome && !s.conf.overridePublisher then
      (s, [.resp id (.publisherErr .alreadyPublishing)])
    else
      let r := consumeOnHoldRequests (attachPublisher s author)
      (r.1, closeOuts ++ r.2 ++ [.resp id (.publisherOk r.1.stream)])

/-- `PathHandler.doAddReader`: attach immediately on a ready stream, otherwise
trigger on-demand activation when idle and hold the request, otherwise fail
with the no-stream-available error. -/
def doAddReader (s : PathState) (id author : Nat) : PathState × List Output :=
  if s.stream.isSome then
    addReaderPost s (id, author)
  else if s.conf.hasOnDemandStaticSource then
    let (s1, evs) :=
      if s.onDemandStaticSourceState == .initial then
        onDemandStaticSourceStart s ""
      else (s, [])
    ({ s1 with
        readerAddRequestsOnHold := s1.readerAddRequestsOnHold ++ [(id, author)] },
      evs)
  else if s.conf.hasOnDemandPublisher then
    let (s1, evs) :=
      if s.onDemandPublisherState == .initial then
        onDemandPublisherStart s ""
      else (s, [])
    ({ s1 with
        readerAddRequestsOnHold := s1.readerAddRequestsOnHold ++ [(id, author)] },
      evs)
  else
    (s, [.resp id (.readerErr .noStream)])

/-- `PathHandler.doRemoveReader`: detach when present, acknowledge, and arm the
relevant idle-close timer when the last reader left a Ready on-demand source. -/
def doRemoveReader (s : PathState) (id author : Nat) : PathState × List Output :=
  let s :=
    if s.readers.contains author then
      { s with readers := s.readers.erase author }
    else s
  let s :=
    if s.readers.isEmpty then
      if s.conf.hasOnDemandStaticSource then
        if s.onDemandStaticSourceState == .ready then
          onDemandStaticSourceScheduleClose s
        else s
      else if s.conf.hasOnDemandPublisher then
        if s.onDemandPublisherState == .ready then
          onDemandPublisherScheduleClose s
        else s
      else s
    else s
  (s, [.resp id .ack])

/-- One iteration of `PathHandler.runInner`'s select: dispatch the message to
its handler. A timer-fire message on an unarmed (drained placeholder) timer
cannot occur in Go and is a no-op here; processing a fire disarms the timer. -/
def processMsg (s : PathState) : Msg → PathState × List Output
  | .staticReadyFire =>
    if s.staticReadyTimerArmed then
      doOnDemandStaticSourceReadyTimer { s with staticReadyTimerArmed := false }
    else (s, [])
  | .staticCloseFire =>
    if s.staticCloseTimerArmed then
      doOnDemandStaticSourceCloseTimer { s with staticCloseTimerArmed := false }
    else (s, [])
  | .pubReadyFire =>
    if s.pubReadyTimerArmed then
      doOnDemandPublisherReadyTimer { s with pubReadyTimerArmed := false }
    else (s, [])
  | .pubCloseFire =>
    if s.pubCloseTimerArmed then
      doOnDemandPublisherCloseTimer { s with pubCloseTimerArmed := false }
    else (s, [])
  | .reloadConf newConf => (doReloadConfPath s newConf, [])
  | .staticSetReady id => doSourceStaticSetReady s id
  | .staticSetNotReady id => doSourceStaticSetNotReady s id
  | .describe id query => doDescribe s id query
  | .addPublisher id author => doAddPublisher s id author
  | .removePublisher id author => doRemovePublisher s id author
  | .addReader id author => doAddReader s id author
  | .removeReader id author => doRemoveReader s id author

/-- Whether `PathHandler.runInner` runs the `shouldClose` self-destroy check
after handling this message kind (the select cases at lines 250-315 of
`pkg/mtx/path.go`). -/
def msgChecksIdle : Msg → Bool
  | .staticReadyFire => true
  | .staticCloseFire => true
  | .pubReadyFire => true
  | .staticSetNotReady _ => true
  | .describe _ _ => true
  | .removePublisher _ _ => true
  | .addReader _ _ => true
  | _ => false

/-- One loop iteration of `PathHandler.runInner` together with its
self-destroy decision: the boolean is true when the loop returns
"not in use" right after this message. -/
def runInnerStep (s : PathState) (m : Msg) : PathState × List Output × Bool :=
  let (s1, outs) := processMsg s m
  (s1, outs, msgChecksIdle m && shouldClose s1)

/-- Processes a list of inbound messages in order, accumulating outputs. -/
def runAll (s : PathState) : List Msg → PathState × List Output
  | [] => (s, [])
  | m :: rest =>
    ((runAll (processMsg s m).1 rest).1,
      (processMsg s m).2 ++ (runAll (processMsg s m).1 rest).2)

/-- The shutdown flush of `PathHandler.run` (lines 218-224 of
`pkg/mtx/path.go`): every still-held Describe and AddReader request is failed
with "terminated". -/
def shutdownFlush (s : PathState) : List Output :=
  s.describeRequestsOnHold.map
    (fun id => Output.resp id (.describeErr .terminated))
  ++ s.readerAddRequestsOnHold.map
    (fun r => Output.resp r.1 (.readerErr .terminated))

/-- A complete actor run: the processed message prefix followed by the
shutdown flush (`runInner` followed by `run`'s epilogue; an early loop exit
only shortens the processed prefix, which is covered because `msgs` is
universally quantified in the theorems below). -/
def runTrace (conf : ConfPath) (msgs : List Msg) : List Output :=
  (runAll (initialState conf) msgs).2
    ++ shutdownFlush (runAll (initialState conf) msgs).1

/-- A named configuration set, keyed by configuration name
(`map[string]*conf.Path` in Go, here an association list). -/
abbrev ConfMap := List (String × ConfPath)

/-- The registry's bookkeeping for one live actor (`pathData` in
`pkg/mtx/path_manager.go`), with the actor handle left abstract. -/
structure PathData where
  ready : Bool
  confName : String
deriving DecidableEq, Repr

/-- The registry state relevant to configuration reload
(`pathManager.pathConfs` and `pathManager.paths`). -/
structure PMState where
  pathConfs : ConfMap
  paths : List (String × PathData)
deriving DecidableEq, Repr

/-- An observable action of the registry during `doReloadConf`: destroying a
live actor, sending a hot-reload message into one, or creating one. -/
inductive PMEvent where
  | closePath (name : String)
  | hotReload (name : String) (newConf : ConfPath)
  | createPath (name : String) (conf : ConfPath)
deriving DecidableEq, Repr

/-- Modelled from the spec: `conf.FindPathConf` (upstream internal package):
resolves which configuration governs a requested name — exact name first, then
pattern match. Pattern matching itself is external; it is passed in as `rm`
(pattern → name → matches). -/
def FindPathConf (rm : String → String → Bool) (confs : ConfMap)
    (name : String) : Option ConfPath :=
  match confs.lookup name with
  | some c => some c
  | none =>
    (confs.find? (fun p =>
      match p.2.regexp with
      | some pat => rm pat name
      | none => false)).map (fun p => p.2)

/-- The `confsToReload` set computed at the top of `pathManager.doReloadConf`:
configurations present in both sets, changed, and hot-reloadable. -/
def confsToReload (oldConfs newConfs : ConfMap) : List String :=
  oldConfs.filterMap (fun p =>
    match newConfs.lookup p.1 with
    | some newPath =>
      if newPath != p.2 && PathConfCanBeUpdated p.2 newPath then some p.1
      else none
    | none => none)

/-- The `confsToRecreate` set computed at the top of
`pathManager.doReloadConf`: configurations present in both sets, changed, and
not hot-reloadable. -/
def confsToRecreate (oldConfs newConfs : ConfMap) : List String :=
  oldConfs.filterMap (fun p =>
    match newConfs.lookup p.1 with
    | some newPath =>
      if newPath != p.2 && !PathConfCanBeUpdated p.2 newPath then some p.1
      else none
    | none => none)

/-- The per-live-path decision of `pathManager.doReloadConf`: keep (possibly
with a new owning configuration name), hot-reload, or destroy. Returns the
retained map entry (if any) and the emitted events. -/
def reloadPathStep (rm : String → String → Bool) (oldConfs newConfs : ConfMap)
    (rel rec : List String) (entry : String × PathData) :
    Option (String × PathData) × List PMEvent :=
  let (pathName, pd) := entry
  match FindPathConf rm newConfs pathName with
  | none => (none, [.closePath pathName])
  | some newPathConf =>
    if newPathConf.name != pd.confName then
      match oldConfs.lookup pd.confName with
      | some oldPathConf =>
        if PathConfCanBeUpdated oldPathConf newPathConf then
          (some (pathName, { pd with confName := newPathConf.name }),
            [.hotReload pathName newPathConf])
        else (none, [.closePath pathName])
      | none => (none, [.closePath pathName])
    else if rec.contains newPathConf.name then
      (none, [.closePath pathName])
    else if rel.contains newPathConf.name then
      (some (pathName, pd), [.hotReload pathName newPathConf])
    else (some (pathName, pd), [])

/-- `pathManager.doReloadConf`: classify changed configurations, walk the live
paths (destroying, hot-reloading or keeping each), install the new
configuration set, and create actors for fixed-name configurations that have
none. -/
def pmDoReloadConf (rm : String → String → Bool) (pm : PMState)
    (newPaths : ConfMap) : PMState × List PMEvent :=
  let rel := confsToReload pm.pathConfs newPaths
  let rec' := confsToRecreate pm.pathConfs newPaths
  let stepped := pm.paths.map (reloadPathStep rm pm.pathConfs newPaths rel rec')
  let keptPaths := stepped.filterMap (fun r => r.1)
  let pathEvents := stepped.flatMap (fun r => r.2)
  let created := newPaths.filterMap (fun p =>
    if p.2.regexp == none && (keptPaths.lookup p.1).isNone then
      some (p.1, p.2)
    else none)
  let createdEntries := created.map
    (fun p => (p.1, ({ ready := false, confName := p.2.name } : PathData)))
  ({ pathConfs := newPaths, paths := keptPaths ++ createdEntries },
    pathEvents ++ created.map (fun p => PMEvent.createPath p.1 p.2))

/-- The number of outputs in a list that resolve request id `i`. -/
def countId (i : Nat) (outs : List Output) : Nat :=
  outs.countP (fun o => o.idOf == some i)

/-- The number of held requests with id `i` in the two on-hold queues. -/
def queueCount (i : Nat) (s : PathState) : Nat :=
  s.describeRequestsOnHold.count i
    + (s.readerAddRequestsOnHold.map Prod.fst).count i

/-- 1 when the message is a request with reply-slot id `i`. -/
def msgCount (i : Nat) (m : Msg) : Nat :=
  match m.idOf with
  | some j => if j = i then 1 else 0
  | none => 0

/-- A baseline fixed-name publisher-source configuration used by witnesses. -/
def confBase : ConfPath where
  name := "cam1"
  regexp := none
  source := "publisher"
  sourceOnDemand := false
  sourceOnDemandStartTimeout := 10
  sourceOnDemandCloseAfter := 10
  sourceRedirect := ""
  fallback := ""
  maxReaders := 0
  overridePublisher := false
  record := false
  recordPath := "rec/%path"
  recordFormat := "fmp4"
  recordPartDuration := 1
  recordMaxPartSize := 50
  recordSegmentDuration := 3600
  recordDeleteAfter := 86400
  runOnDemand := ""
  runOnDemandStartTimeout := 10
  runOnDemandCloseAfter := 10
  rpiCameraBrightness := 0
  rpiCameraContrast := 1
  rpiCameraSaturation := 1
  rpiCameraSharpness := 1
  rpiCameraExposure := "normal"
  rpiCameraFlickerPeriod := 0
  rpiCameraAWB := "auto"
  rpiCameraAWBGains := [0, 0]
  rpiCameraDenoise := "off"
  rpiCameraShutter := 0
  rpiCameraMetering := "centre"
  rpiCameraGain := 0
  rpiCameraEV := 0
  rpiCameraFPS := 30
  rpiCameraIDRPeriod := 60
  rpiCameraBitrate := 1000000

/-- An on-demand static-source configuration used by witnesses. -/
def confStaticOD : ConfPath :=
  { confBase with source := "rtsp://10.0.0.1/cam", sourceOnDemand := true }

/-- A publisher configuration with an on-demand publisher-launch command and a
reader limit of 1, used by witnesses and counterexamples. -/
def confPubOD : ConfPath :=
  { confBase with runOnDemand := "run-me", maxReaders := 1 }

/-- A pattern-matched (ephemeral) publisher configuration. -/
def confPat : ConfPath :=
  { confBase with name := "~^cam.*$", regexp := some "^cam.*$" }

/-- A trivial pattern matcher used by registry witnesses. -/
def rmNone (pat name : String) : Bool := false

/-- Basic shape lemma: `addReaderPost` emits exactly one response, carrying
the request's reply-slot id. -/
theorem addReaderPost_resp (s : PathState) (r : Nat × Nat) :
    ∃ b, (addReaderPost s r).2 = [.resp r.1 b] := by
  unfold addReaderPost
  split
  · exact ⟨_, rfl⟩
  · split
    · exact ⟨_, rfl⟩
    · exact ⟨_, rfl⟩

/-- `addReaderPost` never touches the on-hold queues. -/
theorem addReaderPost_queues (s : PathState) (r : Nat × Nat) :
    (addReaderPost s r).1.describeRequestsOnHold = s.describeRequestsOnHold
      ∧ (addReaderPost s r).1.readerAddRequestsOnHold
          = s.readerAddRequestsOnHold := by
  unfold addReaderPost
  dsimp only
  split
  · exact ⟨rfl, rfl⟩
  · split
    · exact ⟨rfl, rfl⟩
    · constructor <;> (split <;> (try split) <;> (try split) <;> rfl)

/-- `addReaderPost` never changes the stream or the configuration. -/
theorem addReaderPost_stream_conf (s : PathState) (r : Nat × Nat) :
    (addReaderPost s r).1.stream = s.stream
      ∧ (addReaderPost s r).1.conf = s.conf := by
  unfold addReaderPost
  dsimp only
  split
  · exact ⟨rfl, rfl⟩
  · split
    · exact ⟨rfl, rfl⟩
    · constructor <;> (split <;> (try split) <;> (try split) <;> rfl)

/-- An author already in the reader set short-circuits `addReaderPost`. -/
theorem addReaderPost_mem (s : PathState) (r : Nat × Nat)
    (h : r.2 ∈ s.readers) :
    addReaderPost s r = (s, [.resp r.1 (.readerOk s.stream)]) := by
  simp [addReaderPost, h]

/-- A fresh author within the reader limit is attached and answered with the
stream. -/
theorem addReaderPost_attach (s : PathState) (r : Nat × Nat)
    (h : r.2 ∉ s.readers)
    (hcap : s.conf.maxReaders = 0 ∨ s.readers.length < s.conf.maxReaders) :
    (addReaderPost s r).1.readers = r.2 :: s.readers
      ∧ (addReaderPost s r).2 = [.resp r.1 (.readerOk s.stream)] := by
  have hguard :
      (s.conf.maxReaders != 0 && s.readers.length ≥ s.conf.maxReaders)
        = false := by
    rcases hcap with h0 | hlt
    · simp [h0]
    · simp [Nat.not_le.mpr hlt]
  unfold addReaderPost
  dsimp only
  rw [if_neg (by simp [h]), if_neg (by simp [hguard])]
  constructor
  · split <;> (try split) <;> (try split) <;> rfl
  · have hstream :
        ∀ t : PathState, t.stream = s.stream →
          [Output.resp r.1 (ResBody.readerOk t.stream)]
            = [Output.resp r.1 (ResBody.readerOk s.stream)] := by
      intro t ht
      rw [ht]
    split <;> (try split) <;> (try split) <;> (apply hstream; rfl)

/-- A fresh author beyond a nonzero reader limit is refused and the state is
untouched. -/
theorem addReaderPost_full (s : PathState) (r : Nat × Nat)
    (h : r.2 ∉ s.readers) (h0 : s.conf.maxReaders ≠ 0)
    (hge : s.conf.maxReaders ≤ s.readers.length) :
    addReaderPost s r = (s, [.resp r.1 (.readerErr .maxReaders)]) := by
  unfold addReaderPost
  dsimp only
  rw [if_neg (by simp [h]), if_pos (by simp [h0, hge])]

/-- C5: `PathConfCanBeUpdated` returns true exactly when the two
configurations agree on every field outside the safe-to-change-live set
(name, pattern, the record fields and the RPI-camera tuning fields): cloning
the old configuration and overwriting exactly those safe fields with the new
configuration's values yields a value structurally equal to the new
configuration iff all remaining fields already coincide. -/
theorem pathConfCanBeUpdated_iff_differ_only_in_safe_fields (o n : ConfPath) :
    PathConfCanBeUpdated o n = true ↔
      (n.source = o.source
        ∧ n.sourceOnDemand = o.sourceOnDemand
        ∧ n.sourceOnDemandStartTimeout = o.sourceOnDemandStartTimeout
        ∧ n.sourceOnDemandCloseAfter = o.sourceOnDemandCloseAfter
        ∧ n.sourceRedirect = o.sourceRedirect
        ∧ n.fallback = o.fallback
        ∧ n.maxReaders = o.maxReaders
        ∧ n.overridePublisher = o.overridePublisher
        ∧ n.runOnDemand = o.runOnDemand
        ∧ n.runOnDemandStartTimeout = o.runOnDemandStartTimeout
        ∧ n.runOnDemandCloseAfter = o.runOnDemandCloseAfter) := by
  cases o
  cases n
  simp [PathConfCanBeUpdated, ConfPath.clone, ConfPath.mk.injEq]

/-- C9: AddReader on a ready path is idempotent per author: when the author is
already in the reader set the request succeeds with the current stream handle,
and the whole state — reader set, on-demand states, timers — is unchanged.
There is no reader-limit hypothesis: the short-circuit precedes the
maximum-reader-count guard. -/
theorem addReader_idempotent_per_author (s : PathState) (id author sid : Nat)
    (hready : s.stream = some sid) (hmem : author ∈ s.readers) :
    doAddReader s id author = (s, [.resp id (.readerOk (some sid))]) := by
  simp [doAddReader, addReaderPost, hready, hmem]

/-- Witness for C9: a ready publisher path whose reader set is at the
configured maximum of 1; a second AddReader from the attached author still
succeeds and leaves the state untouched. -/
theorem addReader_idempotent_per_author_witness :
    doAddReader
        (runAll (initialState confPubOD)
          [.addPublisher 1 50, .addReader 2 42]).1 3 42
      = ((runAll (initialState confPubOD)
          [.addPublisher 1 50, .addReader 2 42]).1,
        [.resp 3 (.readerOk (some 0))]) :=
  addReader_idempotent_per_author _ 3 42 0 (by decide) (by decide)

/-- C10: a configured MaxReaders of 0 means unlimited: on a ready path the
reader-count guard never fires, so AddReader always answers with the stream
handle and never with the maximum-reader-count-reached error, whatever the
current reader set is. -/
theorem addReader_never_limited_when_maxReaders_zero (s : PathState)
    (id author sid : Nat) (hmax : s.conf.maxReaders = 0)
    (hready : s.stream = some sid) :
    (doAddReader s id author).2 = [.resp id (.readerOk (some sid))] := by
  have hd : doAddReader s id author = addReaderPost s (id, author) := by
    simp [doAddReader, hready]
  rw [hd]
  by_cases hmem : author ∈ s.readers
  · rw [addReaderPost_mem s (id, author) hmem, hready]
  · have h := addReaderPost_attach s (id, author) hmem (Or.inl hmax)
    rw [h.2, hready]

/-- Bridge between the Bool `shouldClose` and its field-level reading. -/
theorem shouldClose_iff (s : PathState) :
    shouldClose s = true ↔
      (s.conf.regexp.isSome = true ∧ s.source = none ∧ s.readers = []
        ∧ s.describeRequestsOnHold = []
        ∧ s.readerAddRequestsOnHold = []) := by
  simp only [shouldClose, Bool.and_eq_true, beq_iff_eq, List.isEmpty_iff]
  tauto

/-- Counterexample to C7 as stated: a pattern-created publisher path in its
born-idle state processes a RemoveReader message; the message leaves the actor
idle (`shouldClose` holds afterwards), yet the loop does not terminate,
because `runInner` runs no idle check after the RemoveReader case. -/
theorem ephemeral_idle_survives_removeReader :
    shouldClose
        (runInnerStep (initialState confPat) (.removeReader 7 99)).1 = true
      ∧ (runInnerStep (initialState confPat) (.removeReader 7 99)).2.2
          = false := by
  decide

/-- C7 amended: a pattern-path actor terminates its loop immediately after a
message of the kinds followed by the idle check (the two static timers, the
publisher ready-timeout, static-source set-not-ready, Describe,
RemovePublisher, AddReader) exactly when that message leaves it idle; the
remaining kinds (RemoveReader, AddPublisher, ReloadConf, the publisher
close timer, static-source set-ready) never trigger self-destroy; and an actor
whose configuration has no regexp never self-destroys this way. -/
theorem ephemeral_self_destroy_after_checked_messages (s : PathState)
    (m : Msg) :
    ((m = .staticReadyFire ∨ m = .staticCloseFire ∨ m = .pubReadyFire
        ∨ (∃ i, m = .staticSetNotReady i)
        ∨ (∃ i q, m = .describe i q)
        ∨ (∃ i a, m = .removePublisher i a)
        ∨ (∃ i a, m = .addReader i a)) →
      ((runInnerStep s m).2.2 = true ↔
        ((runInnerStep s m).1.conf.regexp.isSome = true
          ∧ (runInnerStep s m).1.source = none
          ∧ (runInnerStep s m).1.readers = []
          ∧ (runInnerStep s m).1.describeRequestsOnHold = []
          ∧ (runInnerStep s m).1.readerAddRequestsOnHold = [])))
    ∧ (((∃ i a, m = .removeReader i a) ∨ (∃ i a, m = .addPublisher i a)
          ∨ (∃ c, m = .reloadConf c) ∨ m = .pubCloseFire
          ∨ (∃ i, m = .staticSetReady i)) →
        (runInnerStep s m).2.2 = false)
    ∧ ((runInnerStep s m).1.conf.regexp = none →
        (runInnerStep s m).2.2 = false) := by
  refine ⟨?_, ?_, ?_⟩
  · rintro (rfl | rfl | rfl | ⟨i, rfl⟩ | ⟨i, q, rfl⟩ | ⟨i, a, rfl⟩
      | ⟨i, a, rfl⟩) <;>
      simp [runInnerStep, msgChecksIdle, shouldClose_iff]
  · rintro (⟨i, a, rfl⟩ | ⟨i, a, rfl⟩ | ⟨c, rfl⟩ | rfl | ⟨i, rfl⟩) <;>
      simp [runInnerStep, msgChecksIdle]
  · intro h
    simp only [runInnerStep] at h ⊢
    simp [shouldClose, h]

/-- Witness for the C7 amended theorem: a pattern path processing a Describe
that resolves immediately (no stream available) self-destroys right after. -/
theorem ephemeral_self_destroy_witness :
    (runInnerStep (initialState confPat) (.describe 1 "q")).2.2 = true := by
  have h := (ephemeral_self_destroy_after_checked_messages
    (initialState confPat) (.describe 1 "q")).1
    (Or.inr (Or.inr (Or.inr (Or.inr (Or.inl ⟨1, "q", rfl⟩)))))
  exact h.mpr (by decide)

/-- Counterexample to C4 as stated: on a publisher path with an on-demand
launch command and MaxReaders = 1, two AddReader requests from distinct
authors are held while idle; when a publisher then attaches, the flush answers
the first held request with the new stream but the second with the
maximum-reader-count-reached error — not every pending request is flushed
"with the new stream". -/
theorem addPublisher_flush_can_hit_reader_limit :
    (runAll (initialState confPubOD)
        [.addReader 1 100, .addReader 2 200, .addPublisher 3 50]).2
      = [.ev (.demandStart ""), .resp 1 (.readerOk (some 0)),
          .resp 2 (.readerErr .maxReaders),
          .resp 3 (.publisherOk (some 0))] := by
  decide

/-- Field effects of `executeRemovePublisher`: the configuration, stream
counter and hold queues survive; the source slot is cleared. -/
theorem executeRemovePublisher_facts (s : PathState) :
    (executeRemovePublisher s).conf = s.conf
      ∧ (executeRemovePublisher s).nextStreamId = s.nextStreamId
      ∧ (executeRemovePublisher s).describeRequestsOnHold
          = s.describeRequestsOnHold
      ∧ (executeRemovePublisher s).readerAddRequestsOnHold
          = s.readerAddRequestsOnHold
      ∧ (executeRemovePublisher s).source = none := by
  unfold executeRemovePublisher setNotReady
  dsimp only
  split <;> exact ⟨rfl, rfl, rfl, rfl, rfl⟩

/-- Field effects of `setReady`: a fresh stream is allocated; configuration,
source and hold queues survive. -/
theorem setReady_facts (s : PathState) :
    (setReady s).conf = s.conf
      ∧ (setReady s).source = s.source
      ∧ (setReady s).stream = some s.nextStreamId
      ∧ (setReady s).describeRequestsOnHold = s.describeRequestsOnHold
      ∧ (setReady s).readerAddRequestsOnHold = s.readerAddRequestsOnHold := by
  unfold setReady
  dsimp only
  split <;> exact ⟨rfl, rfl, rfl, rfl, rfl⟩

/-- Field effects of `attachPublisher`: the author occupies the source slot, a
fresh stream is allocated, and the hold queues survive. -/
theorem attachPublisher_facts (s : PathState) (author : Nat) :
    (attachPublisher s author).conf = s.conf
      ∧ (attachPublisher s author).source = some (.publisher author)
      ∧ (attachPublisher s author).stream = some s.nextStreamId
      ∧ (attachPublisher s author).describeRequestsOnHold
          = s.describeRequestsOnHold
      ∧ (attachPublisher s author).readerAddRequestsOnHold
          = s.readerAddRequestsOnHold := by
  unfold attachPublisher onDemandPublisherScheduleClose
  dsimp only
  by_cases hs : s.source.isSome
  · have he := executeRemovePublisher_facts s
    rw [if_pos hs]
    have hr := setReady_facts
      { executeRemovePublisher s with source := some (.publisher author) }
    split <;>
      simp_all
  · rw [if_neg hs]
    have hr := setReady_facts { s with source := some (.publisher author) }
    split <;>
      simp_all

/-- `addReaderPost` never changes the source slot. -/
theorem addReaderPost_source (s : PathState) (r : Nat × Nat) :
    (addReaderPost s r).1.source = s.source := by
  unfold addReaderPost
  dsimp only
  split
  · rfl
  · split
    · rfl
    · split <;> (try split) <;> (try split) <;> rfl

/-- The single response of `addReaderPost` is either the stream or the
reader-limit failure. -/
theorem addReaderPost_body (s : PathState) (r : Nat × Nat) :
    (addReaderPost s r).2 = [.resp r.1 (.readerOk s.stream)]
      ∨ (addReaderPost s r).2 = [.resp r.1 (.readerErr .maxReaders)] := by
  by_cases h1 : r.2 ∈ s.readers
  · left
    rw [addReaderPost_mem s r h1]
  · by_cases h2 : s.conf.maxReaders ≠ 0 ∧ s.conf.maxReaders ≤ s.readers.length
    · right
      rw [addReaderPost_full s r h1 h2.1 h2.2]
    · left
      refine (addReaderPost_attach s r h1 ?_).2
      rcases Nat.eq_zero_or_pos s.conf.maxReaders with h0 | hpos
      · exact Or.inl h0
      · right
        rcases Nat.lt_or_ge s.readers.length s.conf.maxReaders with hlt | hge
        · exact hlt
        · exact absurd ⟨Nat.pos_iff_ne_zero.mp hpos, hge⟩ h2

/-- `flushReaders` preserves the configuration, source, stream and on-hold
queues of the state it runs on. -/
theorem flushReaders_preserves (l : List (Nat × Nat)) : ∀ s : PathState,
    (flushReaders s l).1.conf = s.conf
      ∧ (flushReaders s l).1.source = s.source
      ∧ (flushReaders s l).1.stream = s.stream
      ∧ (flushReaders s l).1.describeRequestsOnHold = s.describeRequestsOnHold
      ∧ (flushReaders s l).1.readerAddRequestsOnHold
          = s.readerAddRequestsOnHold := by
  induction l with
  | nil => intro s; exact ⟨rfl, rfl, rfl, rfl, rfl⟩
  | cons r rest ih =>
    intro s
    have hq := addReaderPost_queues s r
    have hsc := addReaderPost_stream_conf s r
    have hsrc := addReaderPost_source s r
    have ihx := ih (addReaderPost s r).1
    simp only [flushReaders]
    exact ⟨ihx.1.trans hsc.2, ihx.2.1.trans hsrc, ihx.2.2.1.trans hsc.1,
      ihx.2.2.2.1.trans hq.1, ihx.2.2.2.2.trans hq.2⟩

/-- `flushReaders` answers each held AddReader request, in order, with exactly
one response carrying its id: the (preserved) stream on success or the
reader-limit failure. -/
theorem flushReaders_forall2 (l : List (Nat × Nat)) : ∀ s : PathState,
    List.Forall₂ (fun (r : Nat × Nat) (o : Output) =>
        o = .resp r.1 (.readerOk s.stream)
          ∨ o = .resp r.1 (.readerErr .maxReaders))
      l (flushReaders s l).2 := by
  induction l with
  | nil => intro s; simp [flushReaders]
  | cons r rest ih =>
    intro s
    have hbody := addReaderPost_body s r
    have hstream := (addReaderPost_stream_conf s r).1
    have ihx := ih (addReaderPost s r).1
    rw [hstream] at ihx
    simp only [flushReaders]
    rcases hbody with h | h <;>
      · rw [h]
        exact List.Forall₂.cons (by simp) ihx

/-- Full description of `consumeOnHoldRequests`: the queues empty out while
configuration, source and stream survive; the outputs are the held Describe
requests answered with the stream followed by one reader-attach response per
held AddReader request. -/
theorem consumeOnHoldRequests_spec (s : PathState) :
    (consumeOnHoldRequests s).1.conf = s.conf
      ∧ (consumeOnHoldRequests s).1.source = s.source
      ∧ (consumeOnHoldRequests s).1.stream = s.stream
      ∧ (consumeOnHoldRequests s).1.describeRequestsOnHold = []
      ∧ (consumeOnHoldRequests s).1.readerAddRequestsOnHold = []
      ∧ ∃ routs,
          List.Forall₂ (fun (r : Nat × Nat) (o : Output) =>
              o = .resp r.1 (.readerOk s.stream)
                ∨ o = .resp r.1 (.readerErr .maxReaders))
            s.readerAddRequestsOnHold routs
          ∧ (consumeOnHoldRequests s).2
              = s.describeRequestsOnHold.map
                  (fun i => .resp i (.describeStream s.stream)) ++ routs := by
  unfold consumeOnHoldRequests
  dsimp only
  have hp := flushReaders_preserves s.readerAddRequestsOnHold
    { s with describeRequestsOnHold := [], readerAddRequestsOnHold := [] }
  have hf := flushReaders_forall2 s.readerAddRequestsOnHold
    { s with describeRequestsOnHold := [], readerAddRequestsOnHold := [] }
  exact ⟨hp.1, hp.2.1, hp.2.2.1, hp.2.2.2.1, hp.2.2.2.2, _, hf, rfl⟩

/-- C4 amended: AddPublisher fails when the configured source kind is not
"publisher"; fails with the already-publishing error, leaving the state
untouched, when a source is attached and override is off; otherwise (override
winning over any existing publisher, which is closed) it attaches the author,
marks the path ready with a fresh stream, empties both hold queues, answers
every pending Describe with the new stream, and re-runs every pending
AddReader through the normal reader-attach logic, which answers each with the
new stream unless the maximum reader count is reached. -/
theorem addPublisher_newest_wins (s : PathState) (id author : Nat) :
    (s.conf.source ≠ "publisher" →
        doAddPublisher s id author
          = (s, [.resp id (.publisherErr .sourceNotPublisher)]))
    ∧ (s.conf.source = "publisher" → s.source.isSome = true →
        s.conf.overridePublisher = false →
        doAddPublisher s id author
          = (s, [.resp id (.publisherErr .alreadyPublishing)]))
    ∧ (s.conf.source = "publisher" →
        (s.source.isSome = true → s.conf.overridePublisher = true) →
        (doAddPublisher s id author).1.source = some (.publisher author)
          ∧ (doAddPublisher s id author).1.stream = some s.nextStreamId
          ∧ (doAddPublisher s id author).1.describeRequestsOnHold = []
          ∧ (doAddPublisher s id author).1.readerAddRequestsOnHold = []
          ∧ ∃ routs,
              List.Forall₂ (fun (r : Nat × Nat) (o : Output) =>
                  o = .resp r.1 (.readerOk (some s.nextStreamId))
                    ∨ o = .resp r.1 (.readerErr .maxReaders))
                s.readerAddRequestsOnHold routs
              ∧ (doAddPublisher s id author).2
                  = (if s.source.isSome then [.ev .publisherClosed] else [])
                    ++ s.describeRequestsOnHold.map
                        (fun i => .resp i (.describeStream
                          (some s.nextStreamId)))
                    ++ routs
                    ++ [.resp id (.publisherOk (some s.nextStreamId))]) := by
  refine ⟨?_, ?_, ?_⟩
  · intro h
    simp [doAddPublisher, h]
  · intro h hsome hov
    simp [doAddPublisher, h, hsome, hov]
  · intro h hov
    have hguard : (s.source.isSome && !s.conf.overridePublisher) = false := by
      by_cases hs : s.source.isSome
      · simp [hs, hov hs]
      · simp [hs]
    obtain ⟨hconf, hsrc, hstream, hdq, hrq, routs, hf2, houts⟩ :=
      consumeOnHoldRequests_spec (attachPublisher s author)
    obtain ⟨haconf, hasrc, hastream, hadq, harq⟩ :=
      attachPublisher_facts s author
    have hd : doAddPublisher s id author
        = ((consumeOnHoldRequests (attachPublisher s author)).1,
            (if s.source.isSome then [Output.ev .publisherClosed] else [])
              ++ (consumeOnHoldRequests (attachPublisher s author)).2
              ++ [.resp id (.publisherOk
                  (consumeOnHoldRequests (attachPublisher s author)).1.stream)]) := by
      simp [doAddPublisher, h, hguard]
    rw [hd]
    rw [harq, hastream] at hf2
    rw [hadq, hastream] at houts
    refine ⟨hsrc.trans hasrc, hstream.trans hastream, hdq, hrq, routs, hf2, ?_⟩
    rw [houts, hstream.trans hastream]
    simp [List.append_assoc]

/-- Witness for the C4 amended theorem: on the path of the counterexample,
the publisher wins the slot and the path is ready afterwards. -/
theorem addPublisher_newest_wins_witness :
    (doAddPublisher (runAll (initialState confPubOD)
        [.addReader 1 100, .addReader 2 200]).1 3 50).1.source
        = some (.publisher 50)
      ∧ (doAddPublisher (runAll (initialState confPubOD)
          [.addReader 1 100, .addReader 2 200]).1 3 50).1.stream = some 0 := by
  have h := (addPublisher_newest_wins (runAll (initialState confPubOD)
    [.addReader 1 100, .addReader 2 200]).1 3 50).2.2 (by decide) (by decide)
  exact ⟨h.1, h.2.1⟩

/-- Field effects of `doRemoveReader`: the author leaves the reader set
(removal on an absent author is the identity); configuration and stream
survive. -/
theorem doRemoveReader_facts (s : PathState) (id author : Nat) :
    (doRemoveReader s id author).1.readers = s.readers.erase author
      ∧ (doRemoveReader s id author).1.stream = s.stream
      ∧ (doRemoveReader s id author).1.conf = s.conf := by
  unfold doRemoveReader onDemandStaticSourceScheduleClose
    onDemandPublisherScheduleClose
  dsimp only
  refine ⟨?_, ?_, ?_⟩ <;>
    (split <;> (try split) <;> (try split) <;> (try split) <;> (try split) <;>
      simp_all [List.erase_of_not_mem])

/-- On a ready path, an AddReader message is exactly `addReaderPost`. -/
theorem processMsg_addReader_ready (s : PathState) (sid : Nat)
    (h : s.stream = some sid) (id author : Nat) :
    processMsg s (.addReader id author) = addReaderPost s (id, author) := by
  simp [processMsg, doAddReader, h]

/-- A run made only of AddReader messages on a ready path is `flushReaders`. -/
theorem runAll_addReader_msgs (l : List (Nat × Nat)) : ∀ (s : PathState)
    (sid : Nat), s.stream = some sid →
    runAll s (l.map (fun r => Msg.addReader r.1 r.2)) = flushReaders s l := by
  induction l with
  | nil =>
    intro s sid h
    rfl
  | cons r rest ih =>
    intro s sid h
    have hs1 : (addReaderPost s r).1.stream = some sid :=
      (addReaderPost_stream_conf s r).1.trans h
    simp only [List.map_cons, runAll, flushReaders,
      processMsg_addReader_ready s sid h r.1 r.2, Prod.mk.eta,
      ih (addReaderPost s r).1 sid hs1]

/-- Filling a ready path with fresh distinct authors within the reader limit:
every request is answered with the stream and the reader set accumulates all
the authors. -/
theorem flushReaders_all_ok (l : List (Nat × Nat)) : ∀ s : PathState,
    (∀ a ∈ l.map Prod.snd, a ∉ s.readers) →
    (l.map Prod.snd).Nodup →
    (s.conf.maxReaders = 0
      ∨ s.readers.length + l.length ≤ s.conf.maxReaders) →
    (flushReaders s l).2
        = l.map (fun r => Output.resp r.1 (.readerOk s.stream))
      ∧ (flushReaders s l).1.readers
          = (l.map Prod.snd).reverse ++ s.readers := by
  induction l with
  | nil =>
    intro s _ _ _
    exact ⟨rfl, by simp [flushReaders]⟩
  | cons r rest ih =>
    intro s hnotin hnodup hcap
    have hr2 : r.2 ∉ s.readers := hnotin r.2 (by simp)
    have hcap1 : s.conf.maxReaders = 0
        ∨ s.readers.length < s.conf.maxReaders := by
      rcases hcap with h0 | hle
      · exact Or.inl h0
      · right
        simp only [List.length_cons] at hle
        omega
    obtain ⟨hreaders, hout⟩ := addReaderPost_attach s r hr2 hcap1
    have hsc := addReaderPost_stream_conf s r
    have hnotin1 : ∀ a ∈ rest.map Prod.snd, a ∉ (addReaderPost s r).1.readers := by
      intro a ha
      rw [hreaders]
      simp only [List.mem_cons, not_or]
      refine ⟨?_, hnotin a (by simp [ha])⟩
      intro hEq
      simp only [List.map_cons, List.nodup_cons] at hnodup
      exact hnodup.1 (hEq ▸ ha)
    have hnodup1 : (rest.map Prod.snd).Nodup := by
      simp only [List.map_cons, List.nodup_cons] at hnodup
      exact hnodup.2
    have hcap2 : (addReaderPost s r).1.conf.maxReaders = 0
        ∨ (addReaderPost s r).1.readers.length + rest.length
            ≤ (addReaderPost s r).1.conf.maxReaders := by
      rw [hsc.2, hreaders]
      rcases hcap with h0 | hle
      · exact Or.inl h0
      · right
        simp only [List.length_cons] at hle ⊢
        omega
    obtain ⟨ih1, ih2⟩ := ih (addReaderPost s r).1 hnotin1 hnodup1 hcap2
    constructor
    · simp only [flushReaders, hout, ih1, hsc.1, List.map_cons,
        List.cons_append, List.nil_append]
    · simp only [flushReaders, ih2, hreaders, List.map_cons,
        List.reverse_cons, List.append_assoc, List.singleton_append]

/-- C8: on a ready path with MaxReaders = K (nonzero) and an empty reader set,
K AddReader requests from distinct authors all succeed with the stream; a
further AddReader from yet another author fails with the
maximum-reader-count-reached error, leaving the state untouched; and after a
RemoveReader of any one attached author, the refused author succeeds. -/
theorem maxReaders_limit (s : PathState) (sid K : Nat)
    (reqs : List (Nat × Nat)) (id2 a2 idR : Nat)
    (hstream : s.stream = some sid) (hK : s.conf.maxReaders = K)
    (hK0 : K ≠ 0) (hempty : s.readers = [])
    (hlen : reqs.length = K) (hnodup : (reqs.map Prod.snd).Nodup)
    (ha2 : a2 ∉ reqs.map Prod.snd) :
    (runAll s (reqs.map (fun r => Msg.addReader r.1 r.2))).2
        = reqs.map (fun r => Output.resp r.1 (.readerOk (some sid)))
      ∧ processMsg (runAll s (reqs.map (fun r => Msg.addReader r.1 r.2))).1
            (.addReader id2 a2)
          = ((runAll s (reqs.map (fun r => Msg.addReader r.1 r.2))).1,
            [.resp id2 (.readerErr .maxReaders)])
      ∧ ∀ a1 ∈ reqs.map Prod.snd,
          (processMsg
            (processMsg (runAll s
              (reqs.map (fun r => Msg.addReader r.1 r.2))).1
              (.removeReader idR a1)).1
            (.addReader id2 a2)).2
            = [.resp id2 (.readerOk (some sid))] := by
  rw [runAll_addReader_msgs reqs s sid hstream]
  have hnotin : ∀ a ∈ reqs.map Prod.snd, a ∉ s.readers := by
    intro a _
    rw [hempty]
    exact List.not_mem_nil a
  have hcap : s.conf.maxReaders = 0
      ∨ s.readers.length + reqs.length ≤ s.conf.maxReaders := by
    right
    rw [hempty, hK, hlen]
    simp
  obtain ⟨hout, hreaders⟩ := flushReaders_all_ok reqs s hnotin hnodup hcap
  have hpres := flushReaders_preserves reqs s
  set f := (flushReaders s reqs).1 with hf
  have hfstream : f.stream = some sid := hpres.2.2.1.trans hstream
  have hfreaders : f.readers = (reqs.map Prod.snd).reverse := by
    rw [hreaders, hempty, List.append_nil]
  have hfmax : f.conf.maxReaders = K := by
    rw [hpres.1, hK]
  have hflen : f.readers.length = K := by
    rw [hfreaders, List.length_reverse, List.length_map, hlen]
  have ha2f : a2 ∉ f.readers := by
    rw [hfreaders, List.mem_reverse]
    exact ha2
  refine ⟨by rw [hout, hstream], ?_, ?_⟩
  · rw [processMsg_addReader_ready f sid hfstream id2 a2]
    exact addReaderPost_full f (id2, a2) ha2f (by rw [hfmax]; exact hK0)
      (by rw [hfmax, hflen])
  · intro a1 ha1
    have hrr := doRemoveReader_facts f idR a1
    have hrstream : (doRemoveReader f idR a1).1.stream = some sid :=
      hrr.2.1.trans hfstream
    have ha1f : a1 ∈ f.readers := by
      rw [hfreaders, List.mem_reverse]
      exact ha1
    have hrlen : (doRemoveReader f idR a1).1.readers.length = K - 1 := by
      rw [hrr.1, List.length_erase_of_mem ha1f, hflen]
    have ha2r : a2 ∉ (doRemoveReader f idR a1).1.readers := by
      rw [hrr.1]
      intro hmem
      exact ha2f (List.mem_of_mem_erase hmem)
    have hcap2 : (doRemoveReader f idR a1).1.conf.maxReaders = 0
        ∨ (doRemoveReader f idR a1).1.readers.length
            < (doRemoveReader f idR a1).1.conf.maxReaders := by
      right
      rw [hrr.2.2, hfmax, hrlen]
      omega
    simp only [processMsg]
    have hd : doAddReader (doRemoveReader f idR a1).1 id2 a2
        = addReaderPost (doRemoveReader f idR a1).1 (id2, a2) := by
      simp [doAddReader, hrstream]
    rw [hd, (addReaderPost_attach (doRemoveReader f idR a1).1 (id2, a2)
      ha2r hcap2).2, hrstream]

/-- Witness for C8: with MaxReaders = 1, after a publisher attaches and author
100 fills the single reader slot, author 200 is refused with the
maximum-reader-count-reached error and the state is untouched. -/
theorem maxReaders_limit_witness :
    processMsg (runAll (runAll (initialState confPubOD)
          [.addPublisher 1 50]).1
        ([(2, 100)].map (fun r => Msg.addReader r.1 r.2))).1
        (.addReader 3 200)
      = ((runAll (runAll (initialState confPubOD) [.addPublisher 1 50]).1
          ([(2, 100)].map (fun r => Msg.addReader r.1 r.2))).1,
        [.resp 3 (.readerErr .maxReaders)]) :=
  (maxReaders_limit _ 0 1 [(2, 100)] 3 200 9 (by decide) (by decide)
    (by decide) (by decide) (by decide) (by decide) (by decide)).2.1

/-- The actor of an on-demand static-source path is created with the
static-source handler in its source slot. -/
theorem initialState_source_static (conf : ConfPath)
    (hod : conf.hasOnDemandStaticSource = true) :
    (initialState conf).source = some .staticHandler := by
  have hs : conf.hasStaticSource = true := by
    simp only [ConfPath.hasOnDemandStaticSource, Bool.and_eq_true] at hod
    exact hod.1
  have hr : (conf.source == "redirect") = false := by
    simp only [ConfPath.hasStaticSource, Bool.and_eq_true, bne_iff_ne] at hs
    simp [hs.2]
  simp [initialState, hr, hs]

/-- A Describe or AddReader processed while the on-demand static source is in
WaitingReady (path not ready) only enqueues: no output, no state change
besides the grown hold queue. -/
theorem onDemand_waiting_enqueue_step (s : PathState) (m : Msg)
    (hod : s.conf.hasOnDemandStaticSource = true)
    (hsrc : s.source = some .staticHandler)
    (hstream : s.stream = none)
    (hstate : s.onDemandStaticSourceState = .waitingReady)
    (hm : (∃ i q, m = .describe i q) ∨ (∃ i a, m = .addReader i a)) :
    (processMsg s m).2 = []
      ∧ (processMsg s m).1.conf = s.conf
      ∧ (processMsg s m).1.source = s.source
      ∧ (processMsg s m).1.stream = none
      ∧ (processMsg s m).1.onDemandStaticSourceState = .waitingReady
      ∧ (processMsg s m).1.staticReadyTimerArmed = s.staticReadyTimerArmed
      ∧ (processMsg s m).1.describeRequestsOnHold.length
            + (processMsg s m).1.readerAddRequestsOnHold.length
          = s.describeRequestsOnHold.length
            + s.readerAddRequestsOnHold.length + 1 := by
  rcases hm with ⟨i, q, rfl⟩ | ⟨i, a, rfl⟩
  · simp [processMsg, doDescribe, hsrc, hstream, hod, hstate]
    omega
  · simp [processMsg, doAddReader, hstream, hod, hstate]
    omega

/-- A Describe or AddReader processed while the on-demand static source is
Initial (path not ready) starts the source exactly once: one start command is
emitted, the ready-timeout timer is armed, the state moves to WaitingReady and
the request is enqueued. -/
theorem onDemand_initial_trigger_step (s : PathState) (m : Msg)
    (hod : s.conf.hasOnDemandStaticSource = true)
    (hsrc : s.source = some .staticHandler)
    (hstream : s.stream = none)
    (hstate : s.onDemandStaticSourceState = .initial)
    (hm : (∃ i q, m = .describe i q) ∨ (∃ i a, m = .addReader i a)) :
    ((processMsg s m).2.countP (fun o => o.isStaticStart)) = 1
      ∧ (processMsg s m).1.conf = s.conf
      ∧ (processMsg s m).1.source = s.source
      ∧ (processMsg s m).1.stream = none
      ∧ (processMsg s m).1.onDemandStaticSourceState = .waitingReady
      ∧ (processMsg s m).1.staticReadyTimerArmed = true
      ∧ (processMsg s m).1.describeRequestsOnHold.length
            + (processMsg s m).1.readerAddRequestsOnHold.length
          = s.describeRequestsOnHold.length
            + s.readerAddRequestsOnHold.length + 1 := by
  rcases hm with ⟨i, q, rfl⟩ | ⟨i, a, rfl⟩
  · simp [processMsg, doDescribe, hsrc, hstream, hod, hstate,
      onDemandStaticSourceStart, Output.isStaticStart]
    omega
  · simp [processMsg, doAddReader, hstream, hod, hstate,
      onDemandStaticSourceStart, Output.isStaticStart]
    omega

/-- Iterating `onDemand_waiting_enqueue_step`: a run of Describe/AddReader
messages in WaitingReady produces no output at all and only grows the hold
queues. -/
theorem onDemand_waiting_enqueue_run (msgs : List Msg) : ∀ s : PathState,
    s.conf.hasOnDemandStaticSource = true →
    s.source = some .staticHandler →
    s.stream = none →
    s.onDemandStaticSourceState = .waitingReady →
    (∀ m ∈ msgs, (∃ i q, m = .describe i q) ∨ (∃ i a, m = .addReader i a)) →
    (runAll s msgs).2 = []
      ∧ (runAll s msgs).1.conf = s.conf
      ∧ (runAll s msgs).1.source = s.source
      ∧ (runAll s msgs).1.stream = none
      ∧ (runAll s msgs).1.onDemandStaticSourceState = .waitingReady
      ∧ (runAll s msgs).1.staticReadyTimerArmed = s.staticReadyTimerArmed
      ∧ (runAll s msgs).1.describeRequestsOnHold.length
            + (runAll s msgs).1.readerAddRequestsOnHold.length
          = s.describeRequestsOnHold.length
            + s.readerAddRequestsOnHold.length + msgs.length := by
  induction msgs with
  | nil =>
    intro s _ _ _ _ _
    exact ⟨rfl, rfl, rfl, by assumption, by assumption, rfl, by simp [runAll]⟩
  | cons m rest ih =>
    intro s hod hsrc hstream hstate hms
    obtain ⟨ho, hconf, hsr, hst, hos, hta, hlen⟩ :=
      onDemand_waiting_enqueue_step s m hod hsrc hstream hstate
        (hms m (by simp))
    obtain ⟨iho, ihconf, ihsr, ihst, ihos, ihta, ihlen⟩ :=
      ih (processMsg s m).1 (hconf ▸ hod) (hsr.trans hsrc) hst hos
        (fun x hx => hms x (by simp [hx]))
    simp only [runAll]
    refine ⟨?_, ?_, ?_, ?_, ?_, ?_, ?_⟩
    · rw [ho, iho]
      rfl
    · rw [ihconf, hconf]
    · rw [ihsr, hsr]
    · exact ihst
    · exact ihos
    · rw [ihta, hta]
    · rw [ihlen, hlen]
      simp only [List.length_cons]
      omega

/-- The static ready-timeout firing: every held Describe and AddReader is
failed with the timed-out error in queue order, both queues empty, the static
source is stopped and the on-demand state returns to Initial. -/
theorem staticReadyFire_spec (s : PathState)
    (harmed : s.staticReadyTimerArmed = true) :
    (processMsg s .staticReadyFire).1.onDemandStaticSourceState = .initial
      ∧ (processMsg s .staticReadyFire).1.describeRequestsOnHold = []
      ∧ (processMsg s .staticReadyFire).1.readerAddRequestsOnHold = []
      ∧ (processMsg s .staticReadyFire).1.staticReadyTimerArmed = false
      ∧ (processMsg s .staticReadyFire).2
          = s.describeRequestsOnHold.map
              (fun i => Output.resp i (.describeErr .timedOut))
            ++ s.readerAddRequestsOnHold.map
              (fun r => Output.resp r.1 (.readerErr .timedOut))
            ++ [.ev (.staticStop "timed out")] := by
  simp only [processMsg, harmed, if_true, doOnDemandStaticSourceReadyTimer,
    onDemandStaticSourceStop]
  split <;> simp

/-- C2: on a freshly created on-demand static-source path, a nonempty burst of
Describe/AddReader requests starts the source exactly once (the first request
moves Initial to WaitingReady, the rest only enqueue), every request is held,
and if the ready-timeout timer then fires, every held request fails with the
timed-out error, the source is stopped, and the state returns to Initial. -/
theorem onDemand_static_activation_and_timeout (conf : ConfPath)
    (msgs : List Msg)
    (hod : conf.hasOnDemandStaticSource = true)
    (hne : msgs ≠ [])
    (hms : ∀ m ∈ msgs,
      (∃ i q, m = .describe i q) ∨ (∃ i a, m = .addReader i a)) :
    ((runAll (initialState conf) msgs).2.countP
        (fun o => o.isStaticStart)) = 1
      ∧ (runAll (initialState conf) msgs).1.onDemandStaticSourceState
          = .waitingReady
      ∧ (runAll (initialState conf) msgs).1.staticReadyTimerArmed = true
      ∧ (runAll (initialState conf) msgs).1.describeRequestsOnHold.length
            + (runAll
                (initialState conf) msgs).1.readerAddRequestsOnHold.length
          = msgs.length
      ∧ (processMsg (runAll (initialState conf) msgs).1
            .staticReadyFire).1.onDemandStaticSourceState = .initial
      ∧ (processMsg (runAll (initialState conf) msgs).1
            .staticReadyFire).1.describeRequestsOnHold = []
      ∧ (processMsg (runAll (initialState conf) msgs).1
            .staticReadyFire).1.readerAddRequestsOnHold = []
      ∧ (processMsg (runAll (initialState conf) msgs).1 .staticReadyFire).2
          = (runAll (initialState conf) msgs).1.describeRequestsOnHold.map
              (fun i => Output.resp i (.describeErr .timedOut))
            ++ (runAll (initialState conf) msgs).1.readerAddRequestsOnHold.map
              (fun r => Output.resp r.1 (.readerErr .timedOut))
            ++ [.ev (.staticStop "timed out")] := by
  obtain ⟨m, rest, rfl⟩ : ∃ m rest, msgs = m :: rest := by
    cases msgs with
    | nil => exact absurd rfl hne
    | cons m rest => exact ⟨m, rest, rfl⟩
  have hsrc := initialState_source_static conf hod
  obtain ⟨ho1, hconf1, hsr1, hst1, hos1, hta1, hlen1⟩ :=
    onDemand_initial_trigger_step (initialState conf) m hod hsrc rfl rfl
      (hms m (by simp))
  obtain ⟨ho2, hconf2, hsr2, hst2, hos2, hta2, hlen2⟩ :=
    onDemand_waiting_enqueue_run rest (processMsg (initialState conf) m).1
      (hconf1 ▸ hod) (hsr1.trans hsrc) hst1 hos1
      (fun x hx => hms x (by simp [hx]))
  have hrun : runAll (initialState conf) (m :: rest)
      = ((runAll (processMsg (initialState conf) m).1 rest).1,
        (processMsg (initialState conf) m).2
          ++ (runAll (processMsg (initialState conf) m).1 rest).2) := rfl
  rw [hrun]
  have harmed : (runAll (processMsg (initialState conf) m).1
      rest).1.staticReadyTimerArmed = true := by
    rw [hta2, hta1]
  obtain ⟨hf1, hf2, hf3, hf4, hf5⟩ := staticReadyFire_spec _ harmed
  refine ⟨?_, hos2, harmed, ?_, hf1, hf2, hf3, hf5⟩
  · simp only [List.countP_append, ho2, List.countP_nil, ho1]
  · rw [hlen2, hlen1]
    simp only [initialState, List.length_nil, List.length_cons]
    omega

/-- Witness for C2: two Describes and one AddReader on a fresh on-demand
static path start the source once, hold all three, and the timeout fails all
three. -/
theorem onDemand_static_activation_and_timeout_witness :
    ((runAll (initialState confStaticOD)
        [.describe 1 "a", .describe 2 "b", .addReader 3 7]).2.countP
      (fun o => o.isStaticStart)) = 1
      ∧ (processMsg (runAll (initialState confStaticOD)
          [.describe 1 "a", .describe 2 "b", .addReader 3 7]).1
            .staticReadyFire).2
        = [.resp 1 (.describeErr .timedOut), .resp 2 (.describeErr .timedOut),
            .resp 3 (.readerErr .timedOut), .ev (.staticStop "timed out")] := by
  have h := onDemand_static_activation_and_timeout confStaticOD
    [.describe 1 "a", .describe 2 "b", .addReader 3 7] (by decide)
    (by decide)
    (by
      intro m hm
      simp only [List.mem_cons, List.not_mem_nil, or_false] at hm
      rcases hm with rfl | rfl | rfl
      · exact Or.inl ⟨1, "a", rfl⟩
      · exact Or.inl ⟨2, "b", rfl⟩
      · exact Or.inr ⟨3, 7, rfl⟩)
  refine ⟨h.1, ?_⟩
  rw [h.2.2.2.2.2.2.2]
  decide

/-- In an association list with distinct keys, looking a member entry's key up
finds that entry's value. -/
theorem lookup_self {α β : Type} [BEq α] [LawfulBEq α] (l : List (α × β))
    (hnodup : (l.map Prod.fst).Nodup) : ∀ p ∈ l, l.lookup p.1 = some p.2 := by
  induction l with
  | nil =>
    intro p hp
    exact absurd hp (List.not_mem_nil p)
  | cons q rest ih =>
    intro p hp
    simp only [List.map_cons, List.nodup_cons] at hnodup
    rcases List.mem_cons.mp hp with rfl | hmem
    · simp [List.lookup]
    · have hne : (p.1 == q.1) = false := by
        apply beq_eq_false_iff_ne.mpr
        intro hEq
        exact hnodup.1 (hEq ▸ List.mem_map_of_mem Prod.fst hmem)
      simp only [List.lookup, hne]
      exact ih hnodup.2 p hmem

/-- With an unchanged configuration set, no configuration is classified as
hot-reloadable (there is nothing to reload). -/
theorem confsToReload_self (confs : ConfMap)
    (hnodup : (confs.map Prod.fst).Nodup) :
    confsToReload confs confs = [] := by
  unfold confsToReload
  rw [List.filterMap_eq_nil]
  intro p hp
  rw [lookup_self confs hnodup p hp]
  simp

/-- With an unchanged configuration set, no configuration is classified for
destroy-and-recreate. -/
theorem confsToRecreate_self (confs : ConfMap)
    (hnodup : (confs.map Prod.fst).Nodup) :
    confsToRecreate confs confs = [] := by
  unfold confsToRecreate
  rw [List.filterMap_eq_nil]
  intro p hp
  rw [lookup_self confs hnodup p hp]
  simp

/-- C6: reloading the registry with a configuration set in which every named
configuration is structurally equal to the currently held one is a no-op:
no live actor is destroyed, none receives a hot-reload, none is created, and
every actor's entry — its readiness flag included — is untouched. The
hypotheses are the registry's standing invariants: configuration names are
unique, every live path resolves to the configuration named by its entry, and
every fixed-name configuration already has a live path. -/
theorem reload_same_confs_noop (rm : String → String → Bool) (pm : PMState)
    (hkeys : (pm.pathConfs.map Prod.fst).Nodup)
    (hpaths : ∀ p ∈ pm.paths,
      (FindPathConf rm pm.pathConfs p.1).map (fun c => c.name)
        = some p.2.confName)
    (hfixed : ∀ c ∈ pm.pathConfs, c.2.regexp = none →
      (pm.paths.lookup c.1).isSome = true) :
    pmDoReloadConf rm pm pm.pathConfs = (pm, []) := by
  have hstep : ∀ p ∈ pm.paths,
      reloadPathStep rm pm.pathConfs pm.pathConfs
        (confsToReload pm.pathConfs pm.pathConfs)
        (confsToRecreate pm.pathConfs pm.pathConfs) p = (some p, []) := by
    intro p hp
    obtain ⟨c, hc, hcname⟩ := Option.map_eq_some'.mp (hpaths p hp)
    simp [reloadPathStep, hc, hcname, confsToReload_self pm.pathConfs hkeys,
      confsToRecreate_self pm.pathConfs hkeys]
  have hstepped : pm.paths.map (reloadPathStep rm pm.pathConfs pm.pathConfs
      (confsToReload pm.pathConfs pm.pathConfs)
      (confsToRecreate pm.pathConfs pm.pathConfs))
      = pm.paths.map (fun p => (some p, [])) :=
    List.map_congr_left hstep
  have hkept : ∀ l : List (String × PathData),
      (l.map (fun p => (some p, ([] : List PMEvent)))).filterMap
        (fun r => r.1) = l := by
    intro l
    induction l with
    | nil => rfl
    | cons a t ih => simp [List.filterMap_cons, ih]
  have hevents : (pm.paths.map
      (fun p => (some p, ([] : List PMEvent)))).flatMap (fun r => r.2) = [] := by
    simp
  have hcreated : pm.pathConfs.filterMap (fun p =>
      if p.2.regexp == none && (pm.paths.lookup p.1).isNone then
        some (p.1, p.2)
      else none) = [] := by
    rw [List.filterMap_eq_nil]
    intro p hp
    by_cases hre : p.2.regexp = none
    · have hl := hfixed p hp hre
      cases hopt : pm.paths.lookup p.1 with
      | none =>
        rw [hopt] at hl
        simp at hl
      | some v => simp [hre, hopt]
    · simp [hre]
  simp only [pmDoReloadConf, hstepped, hkept pm.paths, hevents, hcreated]
  cases pm
  simp

/-- Witness for C6: a registry holding one fixed-name configuration with its
live actor is untouched by a reload with the identical set. -/
theorem reload_same_confs_noop_witness :
    pmDoReloadConf rmNone
        { pathConfs := [("cam1", confBase)],
          paths := [("cam1", { ready := false, confName := "cam1" })] }
        [("cam1", confBase)]
      = ({ pathConfs := [("cam1", confBase)],
           paths := [("cam1", { ready := false, confName := "cam1" })] },
        []) :=
  reload_same_confs_noop rmNone
    { pathConfs := [("cam1", confBase)],
      paths := [("cam1", { ready := false, confName := "cam1" })] }
    (by decide) (by decide) (by decide)

/-- Counting distributes over output concatenation. -/
theorem countId_append (i : Nat) (l1 l2 : List Output) :
    countId i (l1 ++ l2) = countId i l1 + countId i l2 :=
  List.countP_append _ _ _

/-- A single response counts for its own id. -/
theorem countId_resp (i j : Nat) (b : ResBody) :
    countId i [Output.resp j b] = if j = i then 1 else 0 := by
  by_cases h : j = i <;> simp [countId, Output.idOf, h]

/-- A single event resolves nothing. -/
theorem countId_ev (i : Nat) (e : Ev) : countId i [Output.ev e] = 0 := by
  simp [countId, Output.idOf]

/-- Responses mapped over a queue of ids count the queue. -/
theorem countId_map_ids (i : Nat) (l : List Nat) (f : Nat → ResBody) :
    countId i (l.map (fun x => Output.resp x (f x))) = l.count i := by
  unfold countId
  rw [List.countP_map, List.count_eq_countP]
  refine List.countP_congr ?_
  intro a _
  by_cases h : a = i <;> simp [Output.idOf, Function.comp, h]

/-- Responses mapped over a queue of (id, author) pairs count the ids. -/
theorem countId_map_pairs (i : Nat) (l : List (Nat × Nat))
    (f : Nat × Nat → ResBody) :
    countId i (l.map (fun r => Output.resp r.1 (f r)))
      = (l.map Prod.fst).count i := by
  unfold countId
  rw [List.countP_map, List.count_eq_countP, List.countP_map]
  refine List.countP_congr ?_
  intro a _
  by_cases h : a.1 = i <;> simp [Output.idOf, Function.comp, h]

/-- `addReaderPost`'s single response counts for the request's id. -/
theorem countId_addReaderPost (i : Nat) (s : PathState) (r : Nat × Nat) :
    countId i (addReaderPost s r).2 = if r.1 = i then 1 else 0 := by
  obtain ⟨b, hb⟩ := addReaderPost_resp s r
  rw [hb, countId_resp]

/-- `flushReaders` answers exactly the ids of the flushed queue. -/
theorem countId_flushReaders (i : Nat) (l : List (Nat × Nat)) :
    ∀ s : PathState,
    countId i (flushReaders s l).2 = (l.map Prod.fst).count i := by
  induction l with
  | nil =>
    intro s
    rfl
  | cons r rest ih =>
    intro s
    simp only [flushReaders, countId_append, countId_addReaderPost,
      ih (addReaderPost s r).1, List.map_cons, List.count_cons]
    by_cases h : r.1 = i <;> simp [h]
    omega

/-- `consumeOnHoldRequests` answers exactly the held ids and empties the
queues. -/
theorem countId_consumeOnHold (i : Nat) (s : PathState) :
    countId i (consumeOnHoldRequests s).2 = queueCount i s
      ∧ queueCount i (consumeOnHoldRequests s).1 = 0 := by
  constructor
  · simp only [consumeOnHoldRequests, countId_append, countId_map_ids,
      countId_flushReaders, queueCount]
  · have hp := flushReaders_preserves s.readerAddRequestsOnHold
      { s with describeRequestsOnHold := [], readerAddRequestsOnHold := [] }
    simp only [consumeOnHoldRequests, queueCount, hp.2.2.2.1, hp.2.2.2.2]
    rfl

/-- `onDemandStaticSourceStop` keeps the hold queues and always emits exactly
the stop command. -/
theorem onDemandStaticSourceStop_queues (s : PathState) (reason : String) :
    (onDemandStaticSourceStop s reason).1.describeRequestsOnHold
        = s.describeRequestsOnHold
      ∧ (onDemandStaticSourceStop s reason).1.readerAddRequestsOnHold
          = s.readerAddRequestsOnHold := by
  unfold onDemandStaticSourceStop
  dsimp only
  split <;> exact ⟨rfl, rfl⟩

/-- `onDemandPublisherStop` keeps the hold queues. -/
theorem onDemandPublisherStop_queues (s : PathState) (reason : String) :
    (onDemandPublisherStop s reason).1.describeRequestsOnHold
        = s.describeRequestsOnHold
      ∧ (onDemandPublisherStop s reason).1.readerAddRequestsOnHold
          = s.readerAddRequestsOnHold := by
  unfold onDemandPublisherStop
  dsimp only
  split <;> exact ⟨rfl, rfl⟩

/-- `doReloadConfPath` keeps the hold queues. -/
theorem doReloadConfPath_queues (s : PathState) (c : ConfPath) :
    (doReloadConfPath s c).describeRequestsOnHold = s.describeRequestsOnHold
      ∧ (doReloadConfPath s c).readerAddRequestsOnHold
          = s.readerAddRequestsOnHold := by
  unfold doReloadConfPath
  dsimp only
  split <;> (try split) <;> (try split) <;> exact ⟨rfl, rfl⟩

/-- `doRemoveReader` keeps the hold queues. -/
theorem doRemoveReader_queues (s : PathState) (id author : Nat) :
    (doRemoveReader s id author).1.describeRequestsOnHold
        = s.describeRequestsOnHold
      ∧ (doRemoveReader s id author).1.readerAddRequestsOnHold
          = s.readerAddRequestsOnHold := by
  unfold doRemoveReader onDemandStaticSourceScheduleClose
    onDemandPublisherScheduleClose
  dsimp only
  refine ⟨?_, ?_⟩ <;>
    (split <;> (try split) <;> (try split) <;> (try split) <;> (try split) <;>
      rfl)

/-- The ready-timeout handler answers exactly the held ids and empties both
queues. -/
theorem countId_doStaticReadyTimer (i : Nat) (s : PathState) :
    countId i (doOnDemandStaticSourceReadyTimer s).2 = queueCount i s
      ∧ queueCount i (doOnDemandStaticSourceReadyTimer s).1 = 0 := by
  unfold doOnDemandStaticSourceReadyTimer
  dsimp only
  have hq := onDemandStaticSourceStop_queues
    { s with describeRequestsOnHold := [], readerAddRequestsOnHold := [] }
    "timed out"
  have hout : (onDemandStaticSourceStop
      { s with describeRequestsOnHold := [], readerAddRequestsOnHold := [] }
      "timed out").2 = [.ev (.staticStop "timed out")] := rfl
  constructor
  · rw [countId_append, countId_append, countId_map_ids, countId_map_pairs,
      hout, countId_ev, queueCount]
    omega
  · simp [queueCount, hq.1, hq.2]

/-- The publisher ready-timeout handler answers exactly the held ids and
empties both queues. -/
theorem countId_doPubReadyTimer (i : Nat) (s : PathState) :
    countId i (doOnDemandPublisherReadyTimer s).2 = queueCount i s
      ∧ queueCount i (doOnDemandPublisherReadyTimer s).1 = 0 := by
  unfold doOnDemandPublisherReadyTimer
  dsimp only
  have hq := onDemandPublisherStop_queues
    { s with describeRequestsOnHold := [], readerAddRequestsOnHold := [] }
    "timed out"
  have hout : (onDemandPublisherStop
      { s with describeRequestsOnHold := [], readerAddRequestsOnHold := [] }
      "timed out").2 = [.ev (.demandStop "timed out")] := rfl
  constructor
  · rw [countId_append, countId_append, countId_map_ids, countId_map_pairs,
      hout, countId_ev, queueCount]
    omega
  · simp [queueCount, hq.1, hq.2]

/-- The static idle-close handler answers nothing and keeps the queues. -/
theorem countId_doStaticCloseTimer (i : Nat) (s : PathState) :
    countId i (doOnDemandStaticSourceCloseTimer s).2 = 0
      ∧ queueCount i (doOnDemandStaticSourceCloseTimer s).1
          = queueCount i s := by
  unfold doOnDemandStaticSourceCloseTimer
  dsimp only
  have hq := onDemandStaticSourceStop_queues (setNotReady s)
    "not needed by anyone"
  have hout : (onDemandStaticSourceStop (setNotReady s)
      "not needed by anyone").2 = [.ev (.staticStop "not needed by anyone")] :=
    rfl
  refine ⟨by rw [hout, countId_ev], ?_⟩
  simp only [queueCount]
  rw [hq.1, hq.2]
  rfl

/-- The publisher idle-close handler answers nothing and keeps the queues. -/
theorem countId_doPubCloseTimer (i : Nat) (s : PathState) :
    countId i (doOnDemandPublisherCloseTimer s).2 = 0
      ∧ queueCount i (doOnDemandPublisherCloseTimer s).1 = queueCount i s := by
  unfold doOnDemandPublisherCloseTimer
  have hq := onDemandPublisherStop_queues s "not needed by anyone"
  have hout : (onDemandPublisherStop s "not needed by anyone").2
      = [.ev (.demandStop "not needed by anyone")] := rfl
  exact ⟨by rw [hout, countId_ev], by simp [queueCount, hq.1, hq.2]⟩

/-- The static set-ready handler answers every held id plus its own request
and empties both queues. -/
theorem countId_doSetReady (i : Nat) (s : PathState) (id : Nat) :
    countId i (doSourceStaticSetReady s id).2
        = queueCount i s + (if id = i then 1 else 0)
      ∧ queueCount i (doSourceStaticSetReady s id).1 = 0 := by
  unfold doSourceStaticSetReady
  dsimp only
  have hqpre : queueCount i
      (if (setReady s).conf.hasOnDemandStaticSource = true then
        onDemandStaticSourceScheduleClose
          { setReady s with staticReadyTimerArmed := false }
      else setReady s) = queueCount i s := by
    have hr := setReady_facts s
    split <;>
      simp [queueCount, onDemandStaticSourceScheduleClose, hr.2.2.2.1,
        hr.2.2.2.2]
  have hc := countId_consumeOnHold i
    (if (setReady s).conf.hasOnDemandStaticSource = true then
      onDemandStaticSourceScheduleClose
        { setReady s with staticReadyTimerArmed := false }
    else setReady s)
  rw [countId_append, hc.1, hqpre, countId_resp]
  exact ⟨rfl, hc.2⟩

/-- The static set-not-ready handler answers exactly its own request and keeps
the queues. -/
theorem countId_doSetNotReady (i : Nat) (s : PathState) (id : Nat) :
    countId i (doSourceStaticSetNotReady s id).2 = (if id = i then 1 else 0)
      ∧ queueCount i (doSourceStaticSetNotReady s id).1 = queueCount i s := by
  unfold doSourceStaticSetNotReady
  dsimp only
  have hq := onDemandStaticSourceStop_queues (setNotReady s)
    "an error occurred"
  have hout : (onDemandStaticSourceStop (setNotReady s)
      "an error occurred").2 = [.ev (.staticStop "an error occurred")] := rfl
  split
  · constructor
    · rw [show (Output.resp id ResBody.ack
          :: (onDemandStaticSourceStop (setNotReady s)
            "an error occurred").2)
          = [Output.resp id ResBody.ack]
            ++ (onDemandStaticSourceStop (setNotReady s)
              "an error occurred").2 from rfl,
        countId_append, countId_resp, hout, countId_ev]
      simp
    · simp only [queueCount]
      rw [hq.1, hq.2]
      rfl
  · exact ⟨countId_resp i id .ack, by simp [queueCount, setNotReady]⟩

/-- Conservation for `doDescribe`: the request is answered now or enqueued. -/
theorem countId_doDescribe (i : Nat) (s : PathState) (id : Nat) (q : String) :
    countId i (doDescribe s id q).2 + queueCount i (doDescribe s id q).1
      = queueCount i s + (if id = i then 1 else 0) := by
  unfold doDescribe
  split
  · by_cases h : id = i <;> simp [countId_resp, queueCount, h] <;> omega
  · split
    · by_cases h : id = i <;> simp [countId_resp, queueCount, h] <;> omega
    · split
      · by_cases hst : s.onDemandStaticSourceState = OnDemandState.initial <;>
          by_cases h : id = i <;>
          simp [hst, onDemandStaticSourceStart, countId, Output.idOf,
            queueCount, List.count_append, List.count_singleton, h] <;>
          omega
      · split
        · by_cases hst : s.onDemandPublisherState = OnDemandState.initial <;>
            by_cases h : id = i <;>
            simp [hst, onDemandPublisherStart, countId, Output.idOf,
              queueCount, List.count_append, List.count_singleton, h] <;>
            omega
        · split
          · by_cases h : id = i <;>
              simp [countId_resp, queueCount, h] <;> omega
          · by_cases h : id = i <;>
              simp [countId_resp, queueCount, h] <;> omega

/-- Conservation for `doAddReader`: the request is answered now or enqueued. -/
theorem countId_doAddReader (i : Nat) (s : PathState) (id author : Nat) :
    countId i (doAddReader s id author).2
        + queueCount i (doAddReader s id author).1
      = queueCount i s + (if id = i then 1 else 0) := by
  unfold doAddReader
  split
  · have hq := addReaderPost_queues s (id, author)
    rw [countId_addReaderPost]
    simp only [queueCount, hq.1, hq.2]
    by_cases h : id = i <;> simp [h] <;> omega
  · split
    · by_cases hst : s.onDemandStaticSourceState = OnDemandState.initial <;>
        by_cases h : id = i <;>
        simp [hst, onDemandStaticSourceStart, countId, Output.idOf,
          queueCount, List.count_append, List.count_singleton, h] <;>
        omega
    · split
      · by_cases hst : s.onDemandPublisherState = OnDemandState.initial <;>
          by_cases h : id = i <;>
          simp [hst, onDemandPublisherStart, countId, Output.idOf,
            queueCount, List.count_append, List.count_singleton, h] <;>
          omega
      · by_cases h : id = i <;> simp [countId_resp, queueCount, h] <;> omega

/-- Conservation for `doAddPublisher`: the request is answered, and on success
every held id is answered too while the queues empty out. -/
theorem countId_doAddPublisher (i : Nat) (s : PathState) (id author : Nat) :
    countId i (doAddPublisher s id author).2
        + queueCount i (doAddPublisher s id author).1
      = queueCount i s + (if id = i then 1 else 0) := by
  unfold doAddPublisher
  split
  · by_cases h : id = i <;> simp [countId_resp, queueCount, h] <;> omega
  · dsimp only
    by_cases hg : (s.source.isSome && !s.conf.overridePublisher) = true
    · rw [if_pos hg]
      by_cases h : id = i <;> simp [countId_resp, queueCount, h] <;> omega
    · rw [if_neg hg]
      dsimp only
      have hc := countId_consumeOnHold i (attachPublisher s author)
      have hqa : queueCount i (attachPublisher s author) = queueCount i s := by
        have ha := attachPublisher_facts s author
        simp [queueCount, ha.2.2.2.1, ha.2.2.2.2]
      have hclose : countId i
          (if s.source.isSome then [Output.ev .publisherClosed] else []) = 0 := by
        split
        · exact countId_ev i .publisherClosed
        · rfl
      rw [countId_append, countId_append, hclose, hc.1, hqa, countId_resp,
        hc.2]
      by_cases h : id = i <;> simp [h]

/-- Conservation of request resolutions, one step: for every id, the number of
responses carrying that id emitted while processing a message, plus the number
of copies held in the queues afterwards, equals the number held before plus
one if the message is a request with that id. Every handler either answers a
request immediately, enqueues it, or dequeues held requests answering each
exactly once. -/
theorem processMsg_conservation (s : PathState) (m : Msg) (i : Nat) :
    countId i (processMsg s m).2 + queueCount i (processMsg s m).1
      = queueCount i s + msgCount i m := by
  cases m with
  | staticReadyFire =>
    simp only [processMsg, msgCount, Msg.idOf]
    split
    · rw [(countId_doStaticReadyTimer i _).1, (countId_doStaticReadyTimer i _).2]
      simp [queueCount]
    · simp [countId, queueCount]
  | staticCloseFire =>
    simp only [processMsg, msgCount, Msg.idOf]
    split
    · rw [(countId_doStaticCloseTimer i _).1, (countId_doStaticCloseTimer i _).2]
      simp [queueCount]
    · simp [countId, queueCount]
  | pubReadyFire =>
    simp only [processMsg, msgCount, Msg.idOf]
    split
    · rw [(countId_doPubReadyTimer i _).1, (countId_doPubReadyTimer i _).2]
      simp [queueCount]
    · simp [countId, queueCount]
  | pubCloseFire =>
    simp only [processMsg, msgCount, Msg.idOf]
    split
    · rw [(countId_doPubCloseTimer i _).1, (countId_doPubCloseTimer i _).2]
      simp [queueCount]
    · simp [countId, queueCount]
  | reloadConf c =>
    simp only [processMsg, msgCount, Msg.idOf]
    have hq := doReloadConfPath_queues s c
    simp [countId, queueCount, hq.1, hq.2]
  | staticSetReady id =>
    simp only [processMsg, msgCount, Msg.idOf]
    rw [(countId_doSetReady i s id).1, (countId_doSetReady i s id).2]
    by_cases h : id = i <;> simp [h]
  | staticSetNotReady id =>
    simp only [processMsg, msgCount, Msg.idOf]
    rw [(countId_doSetNotReady i s id).1, (countId_doSetNotReady i s id).2]
    by_cases h : id = i <;> simp [h] <;> omega
  | describe id q =>
    simp only [processMsg, msgCount, Msg.idOf]
    exact countId_doDescribe i s id q
  | addPublisher id author =>
    simp only [processMsg, msgCount, Msg.idOf]
    exact countId_doAddPublisher i s id author
  | removePublisher id author =>
    simp only [processMsg, msgCount, Msg.idOf, doRemovePublisher]
    have he := executeRemovePublisher_facts s
    split <;>
      (rw [countId_resp]
       simp only [queueCount, he.2.2.1, he.2.2.2.1]
       by_cases h : id = i <;> simp [h] <;> omega)
  | addReader id author =>
    simp only [processMsg, msgCount, Msg.idOf]
    exact countId_doAddReader i s id author
  | removeReader id author =>
    simp only [processMsg, msgCount, Msg.idOf]
    have hq := doRemoveReader_queues s id author
    have hout : (doRemoveReader s id author).2 = [.resp id .ack] := by
      unfold doRemoveReader
      dsimp only
    rw [hout, countId_resp]
    simp only [queueCount, hq.1, hq.2]
    by_cases h : id = i <;> simp [h] <;> omega

/-- Conservation over a whole processed message list: responses emitted plus
requests still held equal the requests that arrived. -/
theorem runAll_conservation (msgs : List Msg) : ∀ (s : PathState) (i : Nat),
    countId i (runAll s msgs).2 + queueCount i (runAll s msgs).1
      = queueCount i s + (msgs.filterMap Msg.idOf).count i := by
  induction msgs with
  | nil =>
    intro s i
    simp [runAll, countId]
  | cons m rest ih =>
    intro s i
    simp only [runAll, countId_append]
    have hstep := processMsg_conservation s m i
    have hrest := ih (processMsg s m).1 i
    cases hido : m.idOf with
    | none =>
      have hm0 : msgCount i m = 0 := by simp [msgCount, hido]
      rw [hm0] at hstep
      simp only [List.filterMap_cons, hido]
      omega
    | some j =>
      have hm : msgCount i m = if j = i then 1 else 0 := by
        simp [msgCount, hido]
      rw [hm] at hstep
      simp only [List.filterMap_cons, hido, List.count_cons]
      by_cases h : j = i
      · rw [if_pos h] at hstep
        simp only [h, beq_self_eq_true, if_true]
        omega
      · rw [if_neg h] at hstep
        have hb : (j == i) = false := beq_eq_false_iff_ne.mpr h
        simp only [hb, Bool.false_eq_true, if_false]
        omega

/-- The shutdown flush fails exactly the held requests, one response each. -/
theorem countId_shutdownFlush (i : Nat) (s : PathState) :
    countId i (shutdownFlush s) = queueCount i s := by
  unfold shutdownFlush
  rw [countId_append, countId_map_ids, countId_map_pairs]
  rfl

/-- C1: every request processed by the actor loop — a pending Describe or
AddReader in particular — is resolved exactly once over the complete run
(loop processing followed by the shutdown flush): held requests are answered
by `consumeOnHoldRequests` on readiness, by the ready-timeout handlers with
the timed-out error, or by the shutdown flush with "terminated", and no
request is ever answered twice or left unanswered. Stated as: if the request
ids of the processed trace are distinct, the run's outputs contain exactly one
response carrying each of them. -/
theorem request_resolved_exactly_once (conf : ConfPath) (msgs : List Msg)
    (i : Nat) (hnodup : (msgs.filterMap Msg.idOf).Nodup)
    (hmem : i ∈ msgs.filterMap Msg.idOf) :
    countId i (runTrace conf msgs) = 1 := by
  unfold runTrace
  rw [countId_append, countId_shutdownFlush]
  have h := runAll_conservation msgs (initialState conf) i
  have h0 : queueCount i (initialState conf) = 0 := rfl
  have hcount : (msgs.filterMap Msg.idOf).count i = 1 :=
    List.count_eq_one_of_mem hnodup hmem
  omega

/-- Witness for C1: a held Describe on an idle on-demand static path is
answered exactly once (here by the shutdown flush). -/
theorem request_resolved_exactly_once_witness :
    countId 5 (runTrace confStaticOD [.describe 5 "q"]) = 1 :=
  request_resolved_exactly_once confStaticOD [.describe 5 "q"] 5 (by decide)
    (by decide)

/-- C3: Describe resolves by this exact case order: a redirect source returns
the configured redirect target; else a ready stream is returned; else an
on-demand static source (or, failing that, an on-demand publisher launch) is
activated when idle and the request is enqueued as pending; else a configured
fallback is returned as a redirect; otherwise the request fails with the
no-stream-available error. -/
theorem describe_case_order (s : PathState) (id : Nat) (q : String) :
    (s.source = some .redirect →
        doDescribe s id q
          = (s, [.resp id (.describeRedirect s.conf.sourceRedirect)]))
    ∧ (s.source ≠ some .redirect → ∀ sid, s.stream = some sid →
        doDescribe s id q = (s, [.resp id (.describeStream (some sid))]))
    ∧ (s.source ≠ some .redirect → s.stream = none →
        s.conf.hasOnDemandStaticSource = true →
        (doDescribe s id q).1.describeRequestsOnHold
            = s.describeRequestsOnHold ++ [id]
          ∧ (s.onDemandStaticSourceState = .initial →
              (doDescribe s id q).1.onDemandStaticSourceState = .waitingReady
                ∧ (doDescribe s id q).2 = [.ev (.staticStart q)])
          ∧ (s.onDemandStaticSourceState ≠ .initial →
              (doDescribe s id q).2 = []))
    ∧ (s.source ≠ some .redirect → s.stream = none →
        s.conf.hasOnDemandStaticSource = false →
        s.conf.hasOnDemandPublisher = true →
        (doDescribe s id q).1.describeRequestsOnHold
            = s.describeRequestsOnHold ++ [id]
          ∧ (s.onDemandPublisherState = .initial →
              (doDescribe s id q).1.onDemandPublisherState = .waitingReady
                ∧ (doDescribe s id q).2 = [.ev (.demandStart q)])
          ∧ (s.onDemandPublisherState ≠ .initial →
              (doDescribe s id q).2 = []))
    ∧ (s.source ≠ some .redirect → s.stream = none →
        s.conf.hasOnDemandStaticSource = false →
        s.conf.hasOnDemandPublisher = false →
        s.conf.fallback ≠ "" →
        doDescribe s id q = (s, [.resp id (.describeRedirect s.conf.fallback)]))
    ∧ (s.source ≠ some .redirect → s.stream = none →
        s.conf.hasOnDemandStaticSource = false →
        s.conf.hasOnDemandPublisher = false →
        s.conf.fallback = "" →
        doDescribe s id q = (s, [.resp id (.describeErr .noStream)])) := by
  refine ⟨?_, ?_, ?_, ?_, ?_, ?_⟩
  · intro hred
    simp [doDescribe, hred]
  · intro hred sid hstream
    simp [doDescribe, hred, hstream]
  · intro hred hstream hstatic
    by_cases hinit : s.onDemandStaticSourceState = OnDemandState.initial <;>
      simp [doDescribe, hred, hstream, hstatic, onDemandStaticSourceStart,
        hinit]
  · intro hred hstream hstatic hpub
    by_cases hinit : s.onDemandPublisherState = OnDemandState.initial <;>
      simp [doDescribe, hred, hstream, hstatic, hpub, onDemandPublisherStart,
        hinit]
  · intro hred hstream hstatic hpub hfb
    simp [doDescribe, hred, hstream, hstatic, hpub, hfb]
  · intro hred hstream hstatic hpub hfb
    simp [doDescribe, hred, hstream, hstatic, hpub, hfb]

/-- Witness for C3: on a freshly created idle on-demand static-source path,
Describe enqueues the request, starts the source and reaches WaitingReady. -/
theorem describe_case_order_witness :
    (doDescribe (initialState confStaticOD) 4 "qq").1.describeRequestsOnHold
        = [4]
      ∧ (doDescribe (initialState confStaticOD) 4
          "qq").1.onDemandStaticSourceState = .waitingReady
      ∧ (doDescribe (initialState confStaticOD) 4 "qq").2
          = [.ev (.staticStart "qq")] := by
  have h := (describe_case_order (initialState confStaticOD) 4 "qq").2.2.1
    (by decide) (by decide) (by decide)
  exact ⟨h.1, (h.2.1 (by decide)).1, (h.2.1 (by decide)).2⟩

/-- Witness for C10: a ready path with MaxReaders = 0 and three attached
readers still accepts a fourth. -/
theorem addReader_never_limited_when_maxReaders_zero_witness :
    (doAddReader
        (runAll (initialState confBase)
          [.addPublisher 1 50, .addReader 2 11, .addReader 3 12,
            .addReader 4 13]).1 5 14).2
      = [.resp 5 (.readerOk (some 0))] :=
  addReader_never_limited_when_maxReaders_zero _ 5 14 0 (by decide) (by decide)

end MediaMTX
